import Mathlib

set_option linter.unusedVariables false

/-!
Verification development for the Recomendarr recommendation reconciliation
engine.  The definitions below are a shallow embedding of the TypeScript
sources:

* `src/lib/radarr.ts`   — Radarr client (`addMovieToRadarr`, library fetch)
  and the engine (`runRecommendationEngine`, `approveAndAdd`),
* `src/lib/sonarr.ts`   — Sonarr client (`addSeriesToSonarr`),
* `src/lib/tmdb.ts`     — TMDb helpers (`tmdbResultToRecommendation`,
  `getRecommendationsForItem`, `discoverByFilters`),
* the ai-recommender module (`getAiRecommendations` result mapping),
* the database module (`addRecommendation`, `updateRecommendationStatus`,
  `getRecommendations`, `rowToRecommendation`).

External network calls and the SQLite connection are modelled by an
environment (`Env`) of oracle functions; JavaScript truthiness of optional
numbers / strings (`x ? a : b`, `x || y`) is modelled explicitly by the
`*Truthy` helpers, since the source relies on it (`0`, `""`, `undefined`
are falsy).  JavaScript `parseInt` on a date prefix is modelled by
`parseIntJs` (NaN is represented as `none`; every use in the source guards
the value with a truthiness test, under which NaN and `undefined` are
indistinguishable).  `toLowerCase` is modelled by `lowerStr` (ASCII).
-/

namespace Recomendarr

/-- JavaScript truthiness of an optional number (`undefined` and `0` are falsy). -/
def natTruthy : Option Nat → Bool
  | some n => n != 0
  | none => false

/-- JavaScript truthiness of an optional float-valued field (`undefined` and `0` are falsy). -/
def ratTruthy : Option Rat → Bool
  | some q => q != 0
  | none => false

/-- JavaScript truthiness of an optional string (`undefined` and `""` are falsy). -/
def strTruthy : Option String → Bool
  | some s => s != ""
  | none => false

/-- JavaScript truthiness of an optional array's `.length` (`undefined` and `[]` are falsy). -/
def listTruthy : Option (List String) → Bool
  | some l => !l.isEmpty
  | none => false

/-- `x || null` on an optional number, as used when binding SQL parameters. -/
def jsNumOrNull (o : Option Nat) : Option Nat := if natTruthy o then o else none

/-- `x || null` on an optional float field. -/
def jsRatOrNull (o : Option Rat) : Option Rat := if ratTruthy o then o else none

/-- `x || null` on an optional string. -/
def jsStrOrNull (o : Option String) : Option String := if strTruthy o then o else none

/-- `toLowerCase` (ASCII model). -/
def lowerStr (s : String) : String := String.mk (s.data.map Char.toLower)

/-- Fold decimal digits into a number. -/
def digitsToNat (acc : Nat) : List Char → Nat
  | [] => acc
  | c :: cs => digitsToNat (acc * 10 + (c.toNat - 48)) cs

/-- JavaScript `parseInt` on a string: leading decimal digits, `none` for NaN. -/
def parseIntJs (s : String) : Option Nat :=
  let ds := s.data.takeWhile Char.isDigit
  if ds.isEmpty then none else some (digitsToNat 0 ds)

/-- `s.substring(0, n)`. -/
def takeChars (s : String) (n : Nat) : String := String.mk (s.data.take n)

/-- Case-insensitive character comparison. -/
def charEqCI (a b : Char) : Bool := a.toLower == b.toLower

/-- Does `pat` occur at the head of `s`, case-insensitively? -/
def hasPreCI : List Char → List Char → Bool
  | _, [] => true
  | [], _ :: _ => false
  | a :: as, b :: bs => charEqCI a b && hasPreCI as bs

/-- Case-insensitive substring containment on character lists. -/
def containsCI : List Char → List Char → Bool
  | [], pat => pat.isEmpty
  | s@(_ :: rest), pat => hasPreCI s pat || containsCI rest pat

/-- Case-insensitive substring containment on strings. -/
def strContainsCI (s pat : String) : Bool := containsCI s.data pat.data

/-- Case-sensitive prefix check on character lists. -/
def hasPreCS : List Char → List Char → Bool
  | _, [] => true
  | [], _ :: _ => false
  | a :: as, b :: bs => a == b && hasPreCS as bs

/-- Case-sensitive substring containment on character lists. -/
def containsCS : List Char → List Char → Bool
  | [], pat => pat.isEmpty
  | s@(_ :: rest), pat => hasPreCS s pat || containsCS rest pat

/-- JavaScript `s.includes(pat)`. -/
def strIncludes (s pat : String) : Bool := containsCS s.data pat.data

/-- Media kind of an item or recommendation (`'movie' | 'series'`). -/
inductive MediaType where
  | movie
  | series
deriving DecidableEq, Repr

/-- The media-kind filter value (`'movie' | 'series' | 'all'`). -/
inductive MTFilter where
  | movie
  | series
  | all
deriving DecidableEq, Repr

/-- `item.mediaType === filters.mediaType` (string comparison in the source). -/
def mtEq : MediaType → MTFilter → Bool
  | MediaType.movie, MTFilter.movie => true
  | MediaType.series, MTFilter.series => true
  | _, _ => false

/-- Source tag of a recommendation (`'tmdb' | 'ai'`). -/
inductive RecSource where
  | tmdb
  | ai
deriving DecidableEq, Repr

/-- Recommendation status (`'pending' | 'approved' | 'rejected' | 'added'`). -/
inductive RecStatus where
  | pending
  | approved
  | rejected
  | added
deriving DecidableEq, Repr

/-- `Recommendation` from `types.ts`. -/
structure Recommendation where
  id : Option String := none
  title : String
  year : Option Nat := none
  language : Option String := none
  mediaType : MediaType
  tmdbId : Option Nat := none
  tvdbId : Option Nat := none
  imdbId : Option String := none
  overview : Option String := none
  posterUrl : Option String := none
  genres : Option (List String) := none
  voteAverage : Option Rat := none
  source : RecSource
  aiReasoning : Option String := none
  basedOn : Option String := none
  status : RecStatus := RecStatus.pending
  createdAt : Option String := none
  updatedAt : Option String := none
deriving DecidableEq, Repr

/-- `WatchedItem` from `types.ts` (the fields the engine reads). -/
structure WatchedItem where
  title : String
  year : Option Nat := none
  mediaType : MediaType
  tmdbId : Option Nat := none
  tvdbId : Option Nat := none
  genres : List String := []
deriving DecidableEq, Repr

/-- A stored row of the `recommendations` table. -/
structure Row where
  id : String
  title : String
  year : Option Nat
  mediaType : MediaType
  tmdbId : Option Nat
  tvdbId : Option Nat
  imdbId : Option String
  overview : Option String
  posterUrl : Option String
  genres : Option (List String)
  voteAverage : Option Rat
  source : RecSource
  aiReasoning : Option String
  basedOn : Option String
  status : RecStatus
  createdAt : String
  updatedAt : String
deriving DecidableEq, Repr

/-- The row inserted by `addRecommendation` (the `INSERT` with `|| null`
bindings; `created_at` / `updated_at` default to `datetime('now')`). -/
def recToRow (id : String) (now : String) (rec : Recommendation) : Row :=
  { id := id
    title := rec.title
    year := jsNumOrNull rec.year
    mediaType := rec.mediaType
    tmdbId := jsNumOrNull rec.tmdbId
    tvdbId := jsNumOrNull rec.tvdbId
    imdbId := jsStrOrNull rec.imdbId
    overview := jsStrOrNull rec.overview
    posterUrl := jsStrOrNull rec.posterUrl
    genres := rec.genres
    voteAverage := jsRatOrNull rec.voteAverage
    source := rec.source
    aiReasoning := jsStrOrNull rec.aiReasoning
    basedOn := jsStrOrNull rec.basedOn
    status := rec.status
    createdAt := now
    updatedAt := now }

/-- `rowToRecommendation` from the database module. -/
def rowToRecommendation (row : Row) : Recommendation :=
  { id := some row.id
    title := row.title
    year := row.year
    language := none
    mediaType := row.mediaType
    tmdbId := row.tmdbId
    tvdbId := row.tvdbId
    imdbId := row.imdbId
    overview := row.overview
    posterUrl := row.posterUrl
    genres := row.genres
    voteAverage := row.voteAverage
    source := row.source
    aiReasoning := row.aiReasoning
    basedOn := row.basedOn
    status := row.status
    createdAt := some row.createdAt
    updatedAt := some row.updatedAt }

/-- The duplicate probe of `addRecommendation`
(`SELECT id FROM recommendations WHERE tmdb_id = ? AND media_type = ?`,
only issued when `rec.tmdbId` is truthy). -/
def dupRowFor (db : List Row) (rec : Recommendation) : Option Row :=
  if natTruthy rec.tmdbId then
    db.find? (fun row => row.tmdbId == rec.tmdbId && row.mediaType == rec.mediaType)
  else
    none

/-- `addRecommendation` from the database module.  `freshId` stands for
`crypto.randomUUID()` and `now` for `datetime('now')`. -/
def addRecommendation (db : List Row) (freshId : String) (now : String)
    (rec : Recommendation) : List Row × Recommendation :=
  let id := if strTruthy rec.id then rec.id.getD "" else freshId
  match dupRowFor db rec with
  | some existing => (db, { rec with id := some existing.id })
  | none => (db ++ [recToRow id now rec], { rec with id := some id })

/-- `updateRecommendationStatus` from the database module
(`UPDATE recommendations SET status = ?, updated_at = datetime('now') WHERE id = ?`);
returns the new table and `result.changes > 0`. -/
def updateRecommendationStatus (db : List Row) (id : String) (status : RecStatus)
    (now : String) : List Row × Bool :=
  (db.map (fun r => if r.id == id then { r with status := status, updatedAt := now } else r),
   db.any (fun r => r.id == id))

/-- Insert a row into a list kept in `created_at`-descending order. -/
def insertRowDesc (r : Row) : List Row → List Row
  | [] => [r]
  | x :: xs => if decide (x.createdAt < r.createdAt) then r :: x :: xs else x :: insertRowDesc r xs

/-- `ORDER BY created_at DESC` (insertion sort; ties keep an arbitrary but
fixed order, matching SQLite's unspecified tie order). -/
def sortRowsDesc (l : List Row) : List Row := l.foldr insertRowDesc []

/-- `getRecommendations(status?, limit = 50, offset = 0)` from the database
module: optional status filter, `created_at`-descending order,
`LIMIT ? OFFSET ?`, rows mapped through `rowToRecommendation`. -/
def getRecommendations (db : List Row) (status : Option RecStatus) (limit offset : Nat) :
    List Recommendation :=
  let rows := match status with
    | some st => db.filter (fun r => r.status == st)
    | none => db
  (((sortRowsDesc rows).drop offset).take limit).map rowToRecommendation

/-- A TMDb API result object (`TmdbResult` in `tmdb.ts`; `overview` and
`vote_average` are required by the interface, the rest optional). -/
structure TmdbResult where
  id : Nat
  title : Option String := none
  name : Option String := none
  release_date : Option String := none
  first_air_date : Option String := none
  overview : String := ""
  poster_path : Option String := none
  genre_ids : Option (List Nat) := none
  original_language : Option String := none
  vote_average : Rat := 0
deriving DecidableEq, Repr

/-- The TMDb genre-id table of `tmdb.ts` (`GENRE_MAP`); `""` for absent keys. -/
def tmdbGenreName (i : Nat) : String :=
  if i == 28 then "Action" else if i == 12 then "Adventure"
  else if i == 16 then "Animation" else if i == 35 then "Comedy"
  else if i == 80 then "Crime" else if i == 99 then "Documentary"
  else if i == 18 then "Drama" else if i == 10751 then "Family"
  else if i == 14 then "Fantasy" else if i == 36 then "History"
  else if i == 27 then "Horror" else if i == 10402 then "Music"
  else if i == 9648 then "Mystery" else if i == 10749 then "Romance"
  else if i == 878 then "Sci-Fi" else if i == 10770 then "TV Movie"
  else if i == 53 then "Thriller" else if i == 10752 then "War"
  else if i == 37 then "Western" else if i == 10759 then "Action & Adventure"
  else if i == 10762 then "Kids" else if i == 10763 then "News"
  else if i == 10764 then "Reality" else if i == 10765 then "Sci-Fi & Fantasy"
  else if i == 10766 then "Soap" else if i == 10767 then "Talk"
  else if i == 10768 then "War & Politics" else ""

/-- The engine's inline genre table (the `GENRE_MAP` literal inside
`runRecommendationEngine`, a smaller copy of the TMDb one); `""` for absent keys. -/
def engineGenreName (i : Nat) : String :=
  if i == 28 then "Action" else if i == 12 then "Adventure"
  else if i == 16 then "Animation" else if i == 35 then "Comedy"
  else if i == 80 then "Crime" else if i == 99 then "Documentary"
  else if i == 18 then "Drama" else if i == 10751 then "Family"
  else if i == 14 then "Fantasy" else if i == 36 then "History"
  else if i == 27 then "Horror" else if i == 10402 then "Music"
  else if i == 9648 then "Mystery" else if i == 10749 then "Romance"
  else if i == 878 then "Sci-Fi" else if i == 53 then "Thriller"
  else if i == 10752 then "War" else if i == 37 then "Western"
  else if i == 10759 then "Action & Adventure"
  else if i == 10765 then "Sci-Fi & Fantasy" else ""

/-- `result.release_date ? parseInt(result.release_date.substring(0, 4)) :
result.first_air_date ? parseInt(result.first_air_date.substring(0, 4)) : undefined`. -/
def parseYearOf (r : TmdbResult) : Option Nat :=
  if strTruthy r.release_date then parseIntJs (takeChars (r.release_date.getD "") 4)
  else if strTruthy r.first_air_date then parseIntJs (takeChars (r.first_air_date.getD "") 4)
  else none

/-- The poster base URL used throughout the source. -/
def posterBase : String := "https://image.tmdb.org/t/p/w500"

/-- `tmdbResultToRecommendation` from `tmdb.ts`. -/
def tmdbResultToRecommendation (result : TmdbResult) (type : MediaType)
    (source : RecSource) (basedOn : Option String) : Recommendation :=
  { title :=
      if strTruthy result.title then result.title.getD ""
      else if strTruthy result.name then result.name.getD ""
      else "Unknown"
    year := parseYearOf result
    language := result.original_language
    mediaType := type
    tmdbId := some result.id
    overview := some result.overview
    posterUrl :=
      if strTruthy result.poster_path then some (posterBase ++ result.poster_path.getD "")
      else none
    genres := result.genre_ids.map (fun ids =>
      (ids.map (fun i => let n := tmdbGenreName i; if n == "" then "Unknown" else n)).filter
        (fun s => s != ""))
    voteAverage := some result.vote_average
    source := source
    basedOn := basedOn
    status := RecStatus.pending }

/-- The merge loop of `getRecommendationsForItem` over the concatenated
`[...recs, ...similar]` list: a repeated id or a full budget *breaks* the
loop (the source uses `break`, not `continue`). -/
def itemMergeLoop (item : WatchedItem) (maxPerItem : Nat) (seenIds : List Nat)
    (acc : List Recommendation) : List TmdbResult → List Recommendation
  | [] => acc
  | r :: rest =>
    if seenIds.contains r.id || acc.length >= maxPerItem then acc
    else itemMergeLoop item maxPerItem (seenIds ++ [r.id])
      (acc ++ [tmdbResultToRecommendation r item.mediaType RecSource.tmdb (some item.title)])
      rest

/-- `getRecommendationsForItem` given the already-fetched combined
recommendations+similar list for the item. -/
def getRecommendationsForItem (item : WatchedItem) (maxPerItem : Nat)
    (results : List TmdbResult) : List Recommendation :=
  itemMergeLoop item maxPerItem [] [] results

/-- `AiRecommendation` from the ai-recommender module (the parsed JSON items). -/
structure AiItem where
  title : String
  year : Option Nat := none
  type : String
  tmdb_id : Option Nat := none
  reasoning : String := ""
deriving DecidableEq, Repr

/-- The result mapping of `getAiRecommendations`: AI items become
recommendations with source `ai`, no language, no poster, no genres
(`tmdbId := item.tmdb_id || undefined`). -/
def aiItemToRec (item : AiItem) : Recommendation :=
  { title := item.title
    year := item.year
    mediaType := if item.type == "series" then MediaType.series else MediaType.movie
    tmdbId := jsNumOrNull item.tmdb_id
    source := RecSource.ai
    aiReasoning := some item.reasoning
    status := RecStatus.pending }

/-- An entry of the Radarr library listing (`getAllRadarrMovies`). -/
structure LibraryItem where
  tmdbId : Option Nat := none
  title : String
deriving DecidableEq, Repr

/-- An entry of the Sonarr library listing (`getAllSonarrSeries`). -/
structure SonarrLibItem where
  tvdbId : Option Nat := none
  title : String
deriving DecidableEq, Repr

/-- A Radarr `movie/lookup?term=` result (`Record<string, unknown>`; the
fields the source reads). -/
structure LookupItem where
  title : Option String := none
  tmdbId : Option Nat := none
deriving DecidableEq, Repr

/-- A Sonarr `series/lookup?term=` result. -/
structure SeriesLookupItem where
  title : Option String := none
  tvdbId : Option Nat := none
deriving DecidableEq, Repr

/-- Metadata returned by `lookupMovieByTmdb` (the engine only reads `.title`). -/
structure MovieMeta where
  title : String
deriving DecidableEq, Repr

/-- Metadata returned by `lookupSeriesByTvdb`. -/
structure SeriesMeta where
  title : String
deriving DecidableEq, Repr

/-- Structured result of the add operations (`{ success, message }`). -/
structure AddOutcome where
  success : Bool
  message : String
deriving DecidableEq, Repr

/-- A downstream add call, for observing which identifier was committed. -/
inductive ArrCall where
  | movie (tmdbId : Nat)
  | series (tvdbId : Nat)
deriving DecidableEq, Repr

/-- `AddOptions` of `approveAndAdd`. -/
structure AddOptions where
  qualityProfileId : Option Nat := none
  rootFolderPath : Option String := none
  searchForContent : Option Bool := none
deriving DecidableEq, Repr

/-- The oracle environment: one deterministic function per external call,
plus the configuration values the engine reads.  Each `Except.error` models
a thrown error at that call site; calls whose source wrappers catch all
errors internally (TMDb search, discover, AI, external-ids, the Arr add
operations) are total. -/
structure Env where
  now : String
  radarrLib : Except String (List LibraryItem)
  sonarrLib : Except String (List SonarrLibItem)
  watchHistory : Except String (List WatchedItem)
  maxPerRun : Nat
  aiEnabled : Bool
  autoAdd : Bool
  itemResults : WatchedItem → Except String (List TmdbResult)
  discoverItems : String → List TmdbResult
  aiItems : List AiItem
  search : String → String → Option TmdbResult
  externalTvdbRaw : Nat → Option Nat
  movieExists : Nat → Bool
  movieLookupTmdb : Nat → Option MovieMeta
  postMovie : Nat → Option String
  seriesExists : Nat → Bool
  seriesLookupTvdb : Nat → Option SeriesMeta
  postSeries : Nat → Option String
  movieLookupTerm : String → List LookupItem
  seriesLookupTerm : String → List SeriesLookupItem

/-- `getTmdbExternalIds(...).tvdb_id` (`res.data.tvdb_id || undefined`). -/
def getTmdbExternalIds (env : Env) (tmdbId : Nat) : Option Nat :=
  jsNumOrNull (env.externalTvdbRaw tmdbId)

/-- `addMovieToRadarr` from `radarr.ts`: existence check, TMDb-id lookup,
POST; every failure is returned structurally. -/
def addMovieToRadarr (env : Env) (tmdbId : Nat) (q : Option Nat)
    (root : Option String) (searchNow : Option Bool) : AddOutcome :=
  if env.movieExists tmdbId then
    { success := false, message := "Movie already exists in Radarr" }
  else
    match env.movieLookupTmdb tmdbId with
    | none => { success := false, message := "Could not find movie with tmdb:" ++ toString tmdbId }
    | some md =>
      match env.postMovie tmdbId with
      | none => { success := true, message := "Added \"" ++ md.title ++ "\" to Radarr" }
      | some e =>
        { success := false
          message := "Failed to add movie tmdb:" ++ toString tmdbId ++ ": " ++ e }

/-- `addSeriesToSonarr` from `sonarr.ts`. -/
def addSeriesToSonarr (env : Env) (tvdbId : Nat) (q : Option Nat)
    (root : Option String) (searchNow : Option Bool) : AddOutcome :=
  if env.seriesExists tvdbId then
    { success := false, message := "Series already exists in Sonarr" }
  else
    match env.seriesLookupTvdb tvdbId with
    | none => { success := false, message := "Could not find series with tvdb:" ++ toString tvdbId }
    | some md =>
      match env.postSeries tvdbId with
      | none => { success := true, message := "Added \"" ++ md.title ++ "\" to Sonarr" }
      | some e =>
        { success := false
          message := "Failed to add series tvdb:" ++ toString tvdbId ++ ": " ++ e }

/-- `EngineFilters` from the engine module. -/
structure EngineFilters where
  genres : Option (List String) := none
  language : Option String := none
  yearMin : Option Nat := none
  yearMax : Option Nat := none
  mediaType : Option MTFilter := none
deriving DecidableEq, Repr

/-- The per-run `LibrarySets` index (catalog-id and lowercased-title sets per
library target plus the watched-title set). -/
structure LibrarySets where
  radarrTmdbIds : List Nat
  radarrTitles : List String
  sonarrTvdbIds : List Nat
  sonarrTitles : List String
  watchedTitles : List String
deriving DecidableEq, Repr

/-- Step 0 of the run: best-effort library prefetch; a failed fetch leaves
that target's sets empty (`if (m.tmdbId) ids.add(...)`, titles lowercased). -/
def buildLibrary (env : Env) : LibrarySets :=
  let radarr : List Nat × List String := match env.radarrLib with
    | Except.ok ms =>
      (ms.filterMap (fun (m : LibraryItem) => if natTruthy m.tmdbId then m.tmdbId else none),
       ms.map (fun (m : LibraryItem) => lowerStr m.title))
    | Except.error _ => ([], [])
  let sonarr : List Nat × List String := match env.sonarrLib with
    | Except.ok ss =>
      (ss.filterMap (fun (s : SonarrLibItem) => if natTruthy s.tvdbId then s.tvdbId else none),
       ss.map (fun (s : SonarrLibItem) => lowerStr s.title))
    | Except.error _ => ([], [])
  { radarrTmdbIds := radarr.1
    radarrTitles := radarr.2
    sonarrTvdbIds := sonarr.1
    sonarrTitles := sonarr.2
    watchedTitles := [] }

/-- `rec.mediaType === 'movie' ? 'movie' : 'tv'`. -/
def typeStrOf : MediaType → String
  | MediaType.movie => "movie"
  | MediaType.series => "tv"

/-- First enrichment attempt inside the merge loop: when the candidate's
TMDb id is falsy, one `searchTmdb(rec.title, type)` call backfills id,
overview, poster, rating, genres (via the engine's inline genre table) and
year, each field only if currently falsy (the id unconditionally). -/
def enrichFirst (env : Env) (r : Recommendation) : Recommendation :=
  if natTruthy r.tmdbId then r
  else
    match env.search r.title (typeStrOf r.mediaType) with
    | none => r
    | some tr =>
      { r with
        tmdbId := some tr.id
        overview := if strTruthy r.overview then r.overview else some tr.overview
        posterUrl :=
          if strTruthy r.posterUrl then r.posterUrl
          else if strTruthy tr.poster_path then some (posterBase ++ tr.poster_path.getD "")
          else none
        voteAverage := if ratTruthy r.voteAverage then r.voteAverage else some tr.vote_average
        genres :=
          if listTruthy r.genres then r.genres
          else tr.genre_ids.map (fun ids =>
            (ids.map engineGenreName).filter (fun s => s != ""))
        year := if natTruthy r.year then r.year else parseYearOf tr }

/-- Second enrichment attempt: if the poster is still falsy and a TMDb id is
now known, one more `searchTmdb` call backfills poster, overview and rating. -/
def enrichSecond (env : Env) (r : Recommendation) : Recommendation :=
  if !strTruthy r.posterUrl && natTruthy r.tmdbId then
    match env.search r.title (typeStrOf r.mediaType) with
    | none => r
    | some d =>
      { r with
        posterUrl :=
          if strTruthy d.poster_path then some (posterBase ++ d.poster_path.getD "")
          else r.posterUrl
        overview := if !strTruthy r.overview then some d.overview else r.overview
        voteAverage := if !ratTruthy r.voteAverage then some d.vote_average else r.voteAverage }
  else r

/-- The whole enrichment block, gated on `!rec.posterUrl || !rec.tmdbId`. -/
def enrich (env : Env) (r : Recommendation) : Recommendation :=
  if !strTruthy r.posterUrl || !natTruthy r.tmdbId then enrichSecond env (enrichFirst env r)
  else r

/-- TVDB-id resolution for series candidates (`if (!rec.tvdbId && rec.tmdbId)`
inside the series exclusion branch). -/
def resolveTvdb (env : Env) (r : Recommendation) : Recommendation :=
  if r.mediaType == MediaType.series && !natTruthy r.tvdbId && natTruthy r.tmdbId then
    { r with tvdbId := getTmdbExternalIds env (r.tmdbId.getD 0) }
  else r

/-- The full per-candidate transformation applied between the dedup-key
computation and the exclusion check (enrichment, then TVDB resolution). -/
def pipeTransform (env : Env) (r : Recommendation) : Recommendation :=
  resolveTvdb env (enrich env r)

/-- The identity key of the merge loop:
`rec.tmdbId ? tmdb:<id> : title:<lowercased title>`. -/
def engineKey (r : Recommendation) : String :=
  if natTruthy r.tmdbId then "tmdb:" ++ toString (r.tmdbId.getD 0)
  else "title:" ++ lowerStr r.title

/-- The `alreadyExists` exclusion check against the pre-fetched library sets
and the watched-title set. -/
def alreadyExists (lib : LibrarySets) (r : Recommendation) : Bool :=
  let titleLower := lowerStr r.title
  (match r.mediaType with
   | MediaType.movie =>
     (natTruthy r.tmdbId && lib.radarrTmdbIds.contains (r.tmdbId.getD 0))
       || lib.radarrTitles.contains titleLower
   | MediaType.series =>
     (natTruthy r.tvdbId && lib.sonarrTvdbIds.contains (r.tvdbId.getD 0))
       || lib.sonarrTitles.contains titleLower)
  || lib.watchedTitles.contains titleLower

/-- Genre filter: active when `filters.genres` is present and non-empty; a
candidate passes when some filter genre occurs (case-insensitively) in its
genre list (`(rec.genres || [])`). -/
def genreOk (f : EngineFilters) (r : Recommendation) : Bool :=
  match f.genres with
  | some gs =>
    if gs.length > 0 then
      gs.any (fun fg => ((r.genres.getD []).map lowerStr).contains (lowerStr fg))
    else true
  | none => true

/-- Language filter: active when `filters.language` is truthy and not the
literal `'all'`; a candidate passes only with a truthy, case-insensitively
equal language. -/
def langOk (f : EngineFilters) (r : Recommendation) : Bool :=
  match f.language with
  | some s =>
    if s != "" && s != "all" then
      match r.language with
      | some t => t != "" && lowerStr t == lowerStr s
      | none => false
    else true
  | none => true

/-- Year-range filter: only candidates with a truthy year are checked, each
bound only when truthy (inclusive bounds). -/
def yearOk (f : EngineFilters) (r : Recommendation) : Bool :=
  match r.year with
  | some y =>
    if y != 0 then
      (match f.yearMin with
       | some m => if m != 0 then !(y < m) else true
       | none => true) &&
      (match f.yearMax with
       | some M => if M != 0 then !(y > M) else true
       | none => true)
    else true
  | none => true

/-- Media-kind filter: active when set and not `'all'`. -/
def typeOk (f : EngineFilters) (r : Recommendation) : Bool :=
  match f.mediaType with
  | some mt => if mt != MTFilter.all then mtEq r.mediaType mt else true
  | none => true

/-- The user-filter block (`if (filters) { ... }`), in source order. -/
def filterPassB : Option EngineFilters → Recommendation → Bool
  | none, _ => true
  | some f, r => genreOk f r && langOk f r && yearOk f r && typeOk f r

/-- State of the merge/dedup/enrich/exclude/filter/persist loop.  `keyed`
pairs each persisted candidate with the identity key computed for it (the
source's `uniqueRecs`, instrumented with the key); `nextId` numbers the
generated row ids. -/
structure PipeState where
  seen : List String
  keyed : List (String × Recommendation)
  db : List Row
  nextId : Nat
deriving Repr

/-- The generated row id for the `n`-th insert (stands for `randomUUID`). -/
def freshIdFor (n : Nat) : String := "uuid-" ++ toString n

/-- One iteration of the merge loop: key dedup, enrichment, TVDB resolution,
library/watched exclusion, user filters, persistence. -/
def processRec (env : Env) (filters : Option EngineFilters) (lib : LibrarySets)
    (st : PipeState) (c : Recommendation) : PipeState :=
  let key := engineKey c
  if st.seen.contains key then st
  else
    let seen' := st.seen ++ [key]
    let r2 := pipeTransform env c
    if alreadyExists lib r2 then { st with seen := seen' }
    else if !filterPassB filters r2 then { st with seen := seen' }
    else
      { seen := seen'
        keyed := st.keyed ++ [(key, r2)]
        db := (addRecommendation st.db (freshIdFor st.nextId) env.now r2).1
        nextId := st.nextId + 1 }

/-- `Math.ceil(a / b)` on the naturals. -/
def natCeilDiv (a b : Nat) : Nat := (a + b - 1) / b

/-- Step 2's history restriction: keep only the filtered kind, but fall back
to the full history when the restriction is empty. -/
def filteredHistoryOf (filters : Option EngineFilters) (wh : List WatchedItem) :
    List WatchedItem :=
  match filters with
  | some f =>
    match f.mediaType with
    | some mt =>
      if mt != MTFilter.all then
        let fh := wh.filter (fun item => mtEq item.mediaType mt)
        if fh.isEmpty then wh else fh
      else wh
    | none => wh
  | none => wh

/-- The per-item TMDb loop over the first 10 history items: each item's
fetch either contributes converted recommendations or a collected
`TMDb error for "<title>"` message. -/
def collectItemRecs (env : Env) (maxPerItem : Nat) :
    List WatchedItem → List Recommendation × List String
  | [] => ([], [])
  | item :: rest =>
    let tail := collectItemRecs env maxPerItem rest
    match env.itemResults item with
    | Except.ok rs => (getRecommendationsForItem item maxPerItem rs ++ tail.1, tail.2)
    | Except.error e =>
      (tail.1, ("TMDb error for \"" ++ item.title ++ "\": " ++ e) :: tail.2)

/-- `discoverByFilters` from `tmdb.ts`: one discover call per applicable
kind, each truncated to `ceil(maxResults / types.length)` and converted with
provenance `filter-discovery`. -/
def discoverByFilters (env : Env) (mt : Option MTFilter) (maxResults : Nat) :
    List Recommendation :=
  let types : List String := match mt with
    | none => ["movie", "tv"]
    | some MTFilter.all => ["movie", "tv"]
    | some MTFilter.movie => ["movie"]
    | some MTFilter.series => ["tv"]
  (types.map (fun ty =>
    ((env.discoverItems ty).take (natCeilDiv maxResults types.length)).map
      (fun r => tmdbResultToRecommendation r
        (if ty == "movie" then MediaType.movie else MediaType.series)
        RecSource.tmdb (some "filter-discovery")))).flatten

/-- The guard of step 2b:
`filters && (filters.genres?.length || filters.yearMin || filters.yearMax ||
(filters.mediaType && filters.mediaType !== 'all'))`. -/
def discoverActive (filters : Option EngineFilters) : Bool :=
  match filters with
  | none => false
  | some f =>
    (match f.genres with
     | some gs => !gs.isEmpty
     | none => false)
    || natTruthy f.yearMin || natTruthy f.yearMax
    || (match f.mediaType with
        | some mt => mt != MTFilter.all
        | none => false)

/-- State of the auto-add loop (step 5), including the `Add error` entries
its `catch` pushes onto the run's error list. -/
structure AutoState where
  db : List Row
  added : Nat
  calls : List ArrCall
  errors : List String
deriving Repr

/-- The message of the `TypeError` better-sqlite3 raises when a statement
parameter is bound to `undefined` — every other `.run()` call site in the
database module guards its optionals with `|| null`; the engine's
`updateRecommendationStatus(rec.id!, 'added')` is the one unguarded site. -/
def undefinedBindMsg : String :=
  "SQLite3 can only bind numbers, strings, bigints, buffers, and null"

/-- `updateRecommendationStatus(rec.id!, status)` as invoked by the engine:
`rec.id` is an optional (the engine discards `addRecommendation`'s return,
so fresh candidates never carry one), and binding an absent id makes the
statement throw before the `UPDATE` runs. -/
def updateStatusByOptId (db : List Row) (id : Option String) (status : RecStatus)
    (now : String) : Except String (List Row × Bool) :=
  match id with
  | some i => Except.ok (updateRecommendationStatus db i status now)
  | none => Except.error undefinedBindMsg

/-- One iteration of the auto-add loop.  A movie candidate with a truthy
TMDb id (resp. a series candidate with a truthy TVDB id) is committed; on
`success` the stored status is updated through the candidate's in-memory id
and the counter is incremented — but if that update throws (it binds
`rec.id!`, undefined for fresh candidates), the `catch` collects an
`Add error for "<title>"` entry and the increment is skipped.  A
non-success commit outcome is ignored (the add operations return all their
failures structurally); a candidate of the wrong id shape is skipped
entirely. -/
def autoAddStep (env : Env) (st : AutoState) (r : Recommendation) : AutoState :=
  if r.mediaType == MediaType.movie && natTruthy r.tmdbId then
    let n := r.tmdbId.getD 0
    let res := addMovieToRadarr env n none none none
    if res.success then
      match updateStatusByOptId st.db r.id RecStatus.added env.now with
      | Except.ok upd =>
        { db := upd.1
          added := st.added + 1
          calls := st.calls ++ [ArrCall.movie n]
          errors := st.errors }
      | Except.error e =>
        { st with
            calls := st.calls ++ [ArrCall.movie n]
            errors := st.errors ++ ["Add error for \"" ++ r.title ++ "\": " ++ e] }
    else { st with calls := st.calls ++ [ArrCall.movie n] }
  else if r.mediaType == MediaType.series && natTruthy r.tvdbId then
    let n := r.tvdbId.getD 0
    let res := addSeriesToSonarr env n none none none
    if res.success then
      match updateStatusByOptId st.db r.id RecStatus.added env.now with
      | Except.ok upd =>
        { db := upd.1
          added := st.added + 1
          calls := st.calls ++ [ArrCall.series n]
          errors := st.errors }
      | Except.error e =>
        { st with
            calls := st.calls ++ [ArrCall.series n]
            errors := st.errors ++ ["Add error for \"" ++ r.title ++ "\": " ++ e] }
    else { st with calls := st.calls ++ [ArrCall.series n] }
  else st

/-- `RunResult` from the engine module. -/
structure RunResult where
  watchedCount : Nat
  tmdbRecommendations : Nat
  aiRecommendations : Nat
  totalNew : Nat
  addedToArr : Nat
  errors : List String
deriving DecidableEq, Repr

/-- The observable outcome of one engine run: the returned `RunResult`,
the persisted candidates paired with their merge keys (`uniqueRecs`), the
considered candidate list (`allRecs`), the resulting table and the add
calls that were issued. -/
structure RunOutcome where
  result : RunResult
  keyed : List (String × Recommendation)
  candidates : List Recommendation
  db : List Row
  calls : List ArrCall
deriving Repr

/-- An all-zero `RunResult`. -/
def emptyResult : RunResult :=
  { watchedCount := 0, tmdbRecommendations := 0, aiRecommendations := 0
    totalNew := 0, addedToArr := 0, errors := [] }

/-- The per-run library sets after the watched titles are added. -/
def libOf (env : Env) (wh : List WatchedItem) : LibrarySets :=
  { buildLibrary env with watchedTitles := wh.map (fun w => lowerStr w.title) }

/-- `Math.ceil(cfg.app.maxRecommendationsPerRun / Math.min(watchHistory.length, 10))`. -/
def maxPerItemOf (env : Env) (wh : List WatchedItem) : Nat :=
  natCeilDiv env.maxPerRun (min wh.length 10)

/-- The catalog-sourced candidate list of a run: the per-item loop over the
first 10 history items, plus filter-driven discovery when active. -/
def allTmdbRecsOf (env : Env) (filters : Option EngineFilters) (wh : List WatchedItem) :
    List Recommendation :=
  (collectItemRecs env (maxPerItemOf env wh) ((filteredHistoryOf filters wh).take 10)).1 ++
    (if discoverActive filters then
      discoverByFilters env ((filters.map EngineFilters.mediaType).join) env.maxPerRun
    else [])

/-- The non-fatal errors collected by the per-item loop. -/
def itemErrorsOf (env : Env) (filters : Option EngineFilters) (wh : List WatchedItem) :
    List String :=
  (collectItemRecs env (maxPerItemOf env wh) ((filteredHistoryOf filters wh).take 10)).2

/-- The generative-sourced candidate list of a run (empty when AI is disabled). -/
def aiRecsOf (env : Env) : List Recommendation :=
  if env.aiEnabled then env.aiItems.map aiItemToRec else []

/-- The concatenated candidate list handed to the merge loop (`allRecs`). -/
def allRecsOf (env : Env) (filters : Option EngineFilters) (wh : List WatchedItem) :
    List Recommendation :=
  allTmdbRecsOf env filters wh ++ aiRecsOf env

/-- The state of the merge loop after all candidates were processed. -/
def finalStateOf (env : Env) (filters : Option EngineFilters) (wh : List WatchedItem)
    (db0 : List Row) : PipeState :=
  (allRecsOf env filters wh).foldl (processRec env filters (libOf env wh))
    { seen := [], keyed := [], db := db0, nextId := 0 }

/-- The non-degenerate part of a run (watch history fetched and non-empty):
the merge/dedup/enrich/exclude/filter/persist loop followed by the optional
auto-add pass, summarised into the `RunResult`. -/
def runCore (env : Env) (filters : Option EngineFilters) (wh : List WatchedItem)
    (db0 : List Row) : RunOutcome :=
  let final := finalStateOf env filters wh db0
  let uniqueRecs := final.keyed.map Prod.snd
  let auto :=
    if env.autoAdd then
      uniqueRecs.foldl (autoAddStep env)
        { db := final.db, added := 0, calls := [], errors := [] }
    else { db := final.db, added := 0, calls := [], errors := [] }
  { result :=
      { watchedCount := wh.length
        tmdbRecommendations := (allTmdbRecsOf env filters wh).length
        aiRecommendations := (aiRecsOf env).length
        totalNew := uniqueRecs.length
        addedToArr := auto.added
        errors := itemErrorsOf env filters wh ++ auto.errors }
    keyed := final.keyed
    candidates := allRecsOf env filters wh
    db := auto.db
    calls := auto.calls }

/-- The body of `runRecommendationEngine` (everything inside the `try`):
library prefetch, watch-history fetch (fatal on error, no-op when empty),
then `runCore`.  The TMDb discover and AI helpers catch all their errors
internally, the embedded commit operations return their failures
structurally, and the auto-add loop's `catch` collects the thrown
status-update errors, so the body is total. -/
def runBody (env : Env) (filters : Option EngineFilters) (db0 : List Row) : RunOutcome :=
  match env.watchHistory with
  | Except.error e =>
    { result := { emptyResult with errors := ["Failed to fetch watch history: " ++ e] }
      keyed := [], candidates := [], db := db0, calls := [] }
  | Except.ok wh =>
    if wh.length == 0 then
      { result := emptyResult, keyed := [], candidates := [], db := db0, calls := [] }
    else runCore env filters wh db0

/-- The single-flight wrapper: the `isRunning` guard, and the `finally` that
clears the flag on every exit of the body.  `body` is the remainder of the
call — an arbitrary state transformer that may also end in a thrown error —
so the theorem about this wrapper covers every exit path. -/
def runEngineWith (running : Bool) (db0 : List Row)
    (body : List Row → List Row × Except String RunOutcome) :
    Bool × List Row × Except String RunOutcome :=
  if running then (true, db0, Except.error "Recommendation engine is already running")
  else
    let r := body db0
    (false, r.1, r.2)

/-- `runRecommendationEngine`: the wrapper applied to the (total) body. -/
def runRecommendationEngine (running : Bool) (env : Env)
    (filters : Option EngineFilters) (db0 : List Row) :
    Bool × List Row × Except String RunOutcome :=
  runEngineWith running db0 (fun db =>
    let o := runBody env filters db
    (o.db, Except.ok o))

/-- Outcome of `approveAndAdd`: the structured result, the add calls issued,
and the resulting table. -/
structure CommitOutcome where
  outcome : AddOutcome
  calls : List ArrCall
  db : List Row
deriving Repr

/-- The movie fallback of `approveAndAdd` (`if (rec.tmdbId) { ... }` after a
failed title match). -/
def approveMovieFallback (env : Env) (db : List Row) (recommendationId : String)
    (opts : AddOptions) (rec : Recommendation) : CommitOutcome :=
  if natTruthy rec.tmdbId then
    let n := rec.tmdbId.getD 0
    let result := addMovieToRadarr env n opts.qualityProfileId opts.rootFolderPath
      opts.searchForContent
    if result.success then
      { outcome := { success := true, message := result.message }
        calls := [ArrCall.movie n]
        db := (updateRecommendationStatus db recommendationId RecStatus.added env.now).1 }
    else { outcome := result, calls := [ArrCall.movie n], db := db }
  else
    { outcome :=
        { success := false
          message := "Could not find \"" ++ rec.title ++ "\" in Radarr lookup" }
      calls := [], db := db }

/-- `approveAndAdd` from the engine module: look the stored recommendation
up (`getRecommendations()` — all statuses, newest 50), match it against the
destination's own title lookup (exact case-insensitive match first, then a
substring fuzzy match on the first result), commit with the destination's
native id when the match carries one, otherwise fall back to the stored id
(TMDb id for movies, TVDB id for series). -/
def approveAndAdd (env : Env) (db : List Row) (recommendationId : String)
    (opts : AddOptions) : CommitOutcome :=
  let recs := getRecommendations db none 50 0
  match recs.find? (fun r => r.id == some recommendationId) with
  | none => { outcome := { success := false, message := "Recommendation not found" }
              calls := [], db := db }
  | some rec =>
    match rec.mediaType with
    | MediaType.movie =>
      let searchResults := env.movieLookupTerm rec.title
      let exact := searchResults.find?
        (fun m => lowerStr (m.title.getD "") == lowerStr rec.title)
      let matched := match exact with
        | some m => some m
        | none =>
          match searchResults with
          | [] => none
          | first :: _ =>
            let firstTitle := lowerStr (first.title.getD "")
            let recTitle := lowerStr rec.title
            if strIncludes firstTitle recTitle || strIncludes recTitle firstTitle then
              some first
            else none
      match matched with
      | some m =>
        if natTruthy m.tmdbId then
          let n := m.tmdbId.getD 0
          let result := addMovieToRadarr env n opts.qualityProfileId opts.rootFolderPath
            opts.searchForContent
          if result.success then
            { outcome := { success := true, message := result.message }
              calls := [ArrCall.movie n]
              db := (updateRecommendationStatus db recommendationId RecStatus.added env.now).1 }
          else { outcome := result, calls := [ArrCall.movie n], db := db }
        else approveMovieFallback env db recommendationId opts rec
      | none => approveMovieFallback env db recommendationId opts rec
    | MediaType.series =>
      let searchResults := env.seriesLookupTerm rec.title
      let exact := searchResults.find?
        (fun s => lowerStr (s.title.getD "") == lowerStr rec.title)
      let matched := match exact with
        | some s => some s
        | none =>
          match searchResults with
          | [] => none
          | first :: _ =>
            let firstTitle := lowerStr (first.title.getD "")
            let recTitle := lowerStr rec.title
            if strIncludes firstTitle recTitle || strIncludes recTitle firstTitle then
              some first
            else none
      match matched with
      | none =>
        if natTruthy rec.tvdbId then
          let n := rec.tvdbId.getD 0
          let result := addSeriesToSonarr env n opts.qualityProfileId opts.rootFolderPath
            opts.searchForContent
          if result.success then
            { outcome := result
              calls := [ArrCall.series n]
              db := (updateRecommendationStatus db recommendationId RecStatus.added env.now).1 }
          else { outcome := result, calls := [ArrCall.series n], db := db }
        else
          { outcome :=
              { success := false
                message := "Could not find \"" ++ rec.title ++ "\" in Sonarr lookup" }
            calls := [], db := db }
      | some s =>
        if !natTruthy s.tvdbId then
          { outcome :=
              { success := false
                message := "No TVDb ID found for \"" ++ rec.title ++ "\"" }
            calls := [], db := db }
        else
          let n := s.tvdbId.getD 0
          let result := addSeriesToSonarr env n opts.qualityProfileId opts.rootFolderPath
            opts.searchForContent
          if result.success then
            { outcome := { success := true, message := result.message }
              calls := [ArrCall.series n]
              db := (updateRecommendationStatus db recommendationId RecStatus.added env.now).1 }
          else { outcome := result, calls := [ArrCall.series n], db := db }

/-- The native id selected by `approveAndAdd`'s exact case-insensitive
title match, when that match carries a truthy native id (the destination's
own TMDb id for movies, its TVDB id for series). -/
def exactMatchNativeId (env : Env) (rec : Recommendation) : Option Nat :=
  match rec.mediaType with
  | MediaType.movie =>
    match (env.movieLookupTerm rec.title).find?
        (fun m => lowerStr (m.title.getD "") == lowerStr rec.title) with
    | some m => if natTruthy m.tmdbId then m.tmdbId else none
    | none => none
  | MediaType.series =>
    match (env.seriesLookupTerm rec.title).find?
        (fun s => lowerStr (s.title.getD "") == lowerStr rec.title) with
    | some s => if natTruthy s.tvdbId then s.tvdbId else none
    | none => none

/-- The add call committing id `n` for the given media kind. -/
def mkArrCall : MediaType → Nat → ArrCall
  | MediaType.movie => ArrCall.movie
  | MediaType.series => ArrCall.series

/-- `a` and `b` do not share a catalog id (claim C2's pairwise condition). -/
def pairNoShare (a b : Recommendation) : Bool :=
  !(natTruthy a.tmdbId && a.tmdbId == b.tmdbId)

/-- No two list entries share a catalog id. -/
def noSharedCatalogChk : List Recommendation → Bool
  | [] => true
  | a :: rest => rest.all (pairNoShare a) && noSharedCatalogChk rest

/-- All active filter predicates hold of a candidate: genre intersection
(case-insensitive), language equality (case-insensitive, truthy), inclusive
year bounds (truthy year and bounds only), media-kind equality. -/
def activeFilterSat (f : EngineFilters) (r : Recommendation) : Prop :=
  (∀ gs, f.genres = some gs → 0 < gs.length →
    ∃ fg ∈ gs, ∃ g ∈ r.genres.getD [], lowerStr g = lowerStr fg)
  ∧ (∀ s, f.language = some s → s ≠ "" → s ≠ "all" →
      ∃ t, r.language = some t ∧ t ≠ "" ∧ lowerStr t = lowerStr s)
  ∧ (∀ y, r.year = some y → y ≠ 0 →
      (∀ m, f.yearMin = some m → m ≠ 0 → m ≤ y) ∧
      (∀ M, f.yearMax = some M → M ≠ 0 → y ≤ M))
  ∧ (∀ mt, f.mediaType = some mt → mt ≠ MTFilter.all → mtEq r.mediaType mt = true)

/-- A neutral concrete environment for the concrete scenarios below. -/
def envBase : Env :=
  { now := "2024-01-01 00:00:00"
    radarrLib := Except.ok []
    sonarrLib := Except.ok []
    watchHistory := Except.ok []
    maxPerRun := 30
    aiEnabled := false
    autoAdd := false
    itemResults := fun _ => Except.ok []
    discoverItems := fun _ => []
    aiItems := []
    search := fun _ _ => none
    externalTvdbRaw := fun _ => none
    movieExists := fun _ => false
    movieLookupTmdb := fun _ => none
    postMovie := fun _ => none
    seriesExists := fun _ => false
    seriesLookupTvdb := fun _ => none
    postSeries := fun _ => none
    movieLookupTerm := fun _ => []
    seriesLookupTerm := fun _ => [] }

/-- A watched movie used to seed concrete runs. -/
def seedItem : WatchedItem := { title := "Seed", mediaType := MediaType.movie }

/-- Concrete TMDb results with posters (no enrichment needed). -/
def trA : TmdbResult := { id := 1, title := some "A", poster_path := some "/a.jpg" }

def trB : TmdbResult := { id := 2, title := some "B", poster_path := some "/b.jpg" }

def trC : TmdbResult := { id := 3, title := some "C", poster_path := some "/c.jpg" }

/-- A catalog candidate that already carries catalog id 42. -/
def trX : TmdbResult := { id := 42, title := some "x", poster_path := some "/x.jpg" }

/-- The search result the enrichment step finds for the title `y`. -/
def trY : TmdbResult := { id := 42, poster_path := some "/y.jpg" }

/-- Environment for the C2 scenario: one catalog candidate with catalog id
42 and one generative candidate without an id whose enrichment search also
resolves to catalog id 42. -/
def envC2 : Env :=
  { envBase with
    watchHistory := Except.ok [seedItem]
    aiEnabled := true
    aiItems := [{ title := "y", type := "movie" }]
    itemResults := fun _ => Except.ok [trX]
    search := fun t _ => if t == "y" then some trY else none }

/-- Environment for the C5 scenario: auto-add enabled, three surviving
movie candidates, the commit of catalog id 2 fails downstream. -/
def envC5 : Env :=
  { envBase with
    watchHistory := Except.ok [seedItem]
    autoAdd := true
    itemResults := fun _ => Except.ok [trA, trB, trC]
    movieLookupTmdb := fun n => some { title := "M" ++ toString n }
    postMovie := fun n => if n == 2 then some "HTTP 500" else none }

/-- A TMDb result matching all active filters of the C4 scenario. -/
def trF : TmdbResult :=
  { id := 7, title := some "Heat", poster_path := some "/h.jpg"
    release_date := some "2010-06-01", genre_ids := some [28]
    original_language := some "en" }

/-- Environment for the C4 / C10 witnesses: one catalog candidate with
language `en`, genre `Action`, year 2010. -/
def envC4 : Env :=
  { envBase with
    watchHistory := Except.ok [seedItem]
    itemResults := fun _ => Except.ok [trF] }

/-- The active filter configuration of the C4 witness. -/
def fC4 : EngineFilters :=
  { genres := some ["action"], language := some "EN"
    yearMin := some 2000, yearMax := some 2020, mediaType := some MTFilter.movie }

/-- The surviving candidate of the C4 witness (what `trF` converts to). -/
def recC4 : Recommendation :=
  { title := "Heat", year := some 2010, language := some "en"
    mediaType := MediaType.movie, tmdbId := some 7
    overview := some "", posterUrl := some (posterBase ++ "/h.jpg")
    genres := some ["Action"], voteAverage := some 0
    source := RecSource.tmdb, basedOn := some "Seed", status := RecStatus.pending }

/-- Environment for the C10 witness: language filter active, AI enabled
with one generative candidate (which is dropped), one catalog candidate
with a language. -/
def envC10 : Env :=
  { envC4 with
    aiEnabled := true
    aiItems := [{ title := "y", type := "movie" }] }

/-- The language-only filter of the C10 witness. -/
def fC10 : EngineFilters := { language := some "en" }

/-- What the generative candidate `y` of `envC2` looks like after
enrichment (catalog id 42 backfilled from the title search). -/
def recC2Y : Recommendation :=
  { title := "y", mediaType := MediaType.movie, tmdbId := some 42
    overview := some "", posterUrl := some (posterBase ++ "/y.jpg")
    voteAverage := some 0, source := RecSource.ai, aiReasoning := some ""
    status := RecStatus.pending }

/-- A stored row used by the commit-path witnesses. -/
def rowC6 : Row :=
  { id := "rid1", title := "Dune", year := some 2021
    mediaType := MediaType.movie, tmdbId := some 438631, tvdbId := none
    imdbId := none, overview := none, posterUrl := none, genres := none
    voteAverage := none, source := RecSource.tmdb, aiReasoning := none
    basedOn := none, status := RecStatus.pending
    createdAt := "2024-01-01 00:00:00", updatedAt := "2024-01-01 00:00:00" }

/-- Environment for the C6 witness: the destination's title lookup returns
an exact case-insensitive match carrying native id 77. -/
def envC6 : Env :=
  { envBase with
    movieLookupTerm := fun t =>
      if t == "Dune" then [{ title := some "DUNE", tmdbId := some 77 }] else [] }

/-- A stored row whose catalog id is stale (C7 witness). -/
def rowC7 : Row :=
  { rowC6 with id := "rid2", title := "Ghost", tmdbId := some 999 }

/-- A stored pending row for the C8 scenarios. -/
def rowC8 : Row :=
  { rowC6 with id := "rid3", title := "Solaris", tmdbId := some 593 }

/-- A fresh pending recommendation for the C8 witness. -/
def recC8 : Recommendation :=
  { title := "Stalker", year := some 1979, mediaType := MediaType.movie
    tmdbId := some 1398, source := RecSource.tmdb, status := RecStatus.pending }

/-- Invariant of the merge loop: the `seen` set holds exactly the keys of
the processed prefix, the keys of the persisted entries are pairwise
distinct, and every persisted entry is the transformed *first* candidate of
its key and passed the user filters. -/
structure LoopInv (env : Env) (filters : Option EngineFilters)
    (processed : List Recommendation) (st : PipeState) : Prop where
  seen_iff : ∀ k, st.seen.contains k = true ↔ ∃ c ∈ processed, engineKey c = k
  keysNodup : (st.keyed.map Prod.fst).Nodup
  entries : ∀ p ∈ st.keyed, ∃ c,
    processed.find? (fun x => engineKey x == p.1) = some c ∧
    p.2 = pipeTransform env c ∧ engineKey c = p.1 ∧ filterPassB filters p.2 = true

theorem enrichFirst_of_truthy (env : Env) (r : Recommendation)
    (h : natTruthy r.tmdbId = true) : enrichFirst env r = r := by
  unfold enrichFirst
  rw [if_pos h]

theorem enrichFirst_title (env : Env) (r : Recommendation) :
    (enrichFirst env r).title = r.title := by
  unfold enrichFirst
  split
  · rfl
  · split <;> rfl

theorem enrichFirst_mediaType (env : Env) (r : Recommendation) :
    (enrichFirst env r).mediaType = r.mediaType := by
  unfold enrichFirst
  split
  · rfl
  · split <;> rfl

theorem enrichFirst_source (env : Env) (r : Recommendation) :
    (enrichFirst env r).source = r.source := by
  unfold enrichFirst
  split
  · rfl
  · split <;> rfl

theorem enrichFirst_language (env : Env) (r : Recommendation) :
    (enrichFirst env r).language = r.language := by
  unfold enrichFirst
  split
  · rfl
  · split <;> rfl

theorem enrichFirst_tvdbId (env : Env) (r : Recommendation) :
    (enrichFirst env r).tvdbId = r.tvdbId := by
  unfold enrichFirst
  split
  · rfl
  · split <;> rfl

theorem enrichSecond_title (env : Env) (r : Recommendation) :
    (enrichSecond env r).title = r.title := by
  unfold enrichSecond
  split
  · split <;> rfl
  · rfl

theorem enrichSecond_mediaType (env : Env) (r : Recommendation) :
    (enrichSecond env r).mediaType = r.mediaType := by
  unfold enrichSecond
  split
  · split <;> rfl
  · rfl

theorem enrichSecond_source (env : Env) (r : Recommendation) :
    (enrichSecond env r).source = r.source := by
  unfold enrichSecond
  split
  · split <;> rfl
  · rfl

theorem enrichSecond_language (env : Env) (r : Recommendation) :
    (enrichSecond env r).language = r.language := by
  unfold enrichSecond
  split
  · split <;> rfl
  · rfl

theorem enrichSecond_tmdbId (env : Env) (r : Recommendation) :
    (enrichSecond env r).tmdbId = r.tmdbId := by
  unfold enrichSecond
  split
  · split <;> rfl
  · rfl

theorem enrichSecond_tvdbId (env : Env) (r : Recommendation) :
    (enrichSecond env r).tvdbId = r.tvdbId := by
  unfold enrichSecond
  split
  · split <;> rfl
  · rfl

theorem enrich_title (env : Env) (r : Recommendation) :
    (enrich env r).title = r.title := by
  unfold enrich
  split
  · rw [enrichSecond_title, enrichFirst_title]
  · rfl

theorem enrich_mediaType (env : Env) (r : Recommendation) :
    (enrich env r).mediaType = r.mediaType := by
  unfold enrich
  split
  · rw [enrichSecond_mediaType, enrichFirst_mediaType]
  · rfl

theorem enrich_source (env : Env) (r : Recommendation) :
    (enrich env r).source = r.source := by
  unfold enrich
  split
  · rw [enrichSecond_source, enrichFirst_source]
  · rfl

theorem enrich_language (env : Env) (r : Recommendation) :
    (enrich env r).language = r.language := by
  unfold enrich
  split
  · rw [enrichSecond_language, enrichFirst_language]
  · rfl

theorem enrich_tvdbId (env : Env) (r : Recommendation) :
    (enrich env r).tvdbId = r.tvdbId := by
  unfold enrich
  split
  · rw [enrichSecond_tvdbId, enrichFirst_tvdbId]
  · rfl

theorem enrich_tmdbId_of_truthy (env : Env) (r : Recommendation)
    (h : natTruthy r.tmdbId = true) : (enrich env r).tmdbId = r.tmdbId := by
  unfold enrich
  split
  · rw [enrichSecond_tmdbId, enrichFirst_of_truthy env r h]
  · rfl

theorem resolveTvdb_title (env : Env) (r : Recommendation) :
    (resolveTvdb env r).title = r.title := by
  unfold resolveTvdb
  split <;> rfl

theorem resolveTvdb_mediaType (env : Env) (r : Recommendation) :
    (resolveTvdb env r).mediaType = r.mediaType := by
  unfold resolveTvdb
  split <;> rfl

theorem resolveTvdb_source (env : Env) (r : Recommendation) :
    (resolveTvdb env r).source = r.source := by
  unfold resolveTvdb
  split <;> rfl

theorem resolveTvdb_language (env : Env) (r : Recommendation) :
    (resolveTvdb env r).language = r.language := by
  unfold resolveTvdb
  split <;> rfl

theorem resolveTvdb_tmdbId (env : Env) (r : Recommendation) :
    (resolveTvdb env r).tmdbId = r.tmdbId := by
  unfold resolveTvdb
  split <;> rfl

theorem resolveTvdb_tvdbId_of_truthy (env : Env) (r : Recommendation)
    (h : natTruthy r.tvdbId = true) : (resolveTvdb env r).tvdbId = r.tvdbId := by
  unfold resolveTvdb
  split
  · simp_all
  · rfl

theorem pipeTransform_title (env : Env) (r : Recommendation) :
    (pipeTransform env r).title = r.title := by
  unfold pipeTransform
  rw [resolveTvdb_title, enrich_title]

theorem pipeTransform_mediaType (env : Env) (r : Recommendation) :
    (pipeTransform env r).mediaType = r.mediaType := by
  unfold pipeTransform
  rw [resolveTvdb_mediaType, enrich_mediaType]

theorem pipeTransform_source (env : Env) (r : Recommendation) :
    (pipeTransform env r).source = r.source := by
  unfold pipeTransform
  rw [resolveTvdb_source, enrich_source]

theorem pipeTransform_language (env : Env) (r : Recommendation) :
    (pipeTransform env r).language = r.language := by
  unfold pipeTransform
  rw [resolveTvdb_language, enrich_language]

theorem pipeTransform_tmdbId_of_truthy (env : Env) (r : Recommendation)
    (h : natTruthy r.tmdbId = true) : (pipeTransform env r).tmdbId = r.tmdbId := by
  unfold pipeTransform
  rw [resolveTvdb_tmdbId, enrich_tmdbId_of_truthy env r h]

theorem pipeTransform_tvdbId_of_truthy (env : Env) (r : Recommendation)
    (h : natTruthy r.tvdbId = true) : (pipeTransform env r).tvdbId = r.tvdbId := by
  unfold pipeTransform
  rw [resolveTvdb_tvdbId_of_truthy, enrich_tvdbId]
  rw [enrich_tvdbId]
  exact h

theorem pipeTransform_tmdbId_falsy (env : Env) (r : Recommendation)
    (h : natTruthy (pipeTransform env r).tmdbId = false) :
    natTruthy r.tmdbId = false := by
  by_cases hr : natTruthy r.tmdbId = true
  · rw [pipeTransform_tmdbId_of_truthy env r hr] at h
    rw [hr] at h
    exact absurd h (by simp)
  · simpa using hr

theorem contains_append_one (l : List String) (a k : String) :
    (l ++ [a]).contains k = (l.contains k || (k == a)) := by
  rw [Bool.eq_iff_iff]
  simp [beq_iff_eq]

theorem contains_iff_mem_str (l : List String) (k : String) :
    l.contains k = true ↔ k ∈ l :=
  List.elem_iff

theorem processRec_of_seen (env : Env) (f : Option EngineFilters) (lib : LibrarySets)
    (st : PipeState) (c : Recommendation)
    (h : st.seen.contains (engineKey c) = true) :
    processRec env f lib st c = st := by
  have hm : engineKey c ∈ st.seen := (contains_iff_mem_str _ _).mp h
  simp [processRec, hm]

theorem processRec_of_excluded (env : Env) (f : Option EngineFilters) (lib : LibrarySets)
    (st : PipeState) (c : Recommendation)
    (h1 : st.seen.contains (engineKey c) = false)
    (h2 : alreadyExists lib (pipeTransform env c) = true) :
    processRec env f lib st c = { st with seen := st.seen ++ [engineKey c] } := by
  have hm : engineKey c ∉ st.seen := by
    intro hmem
    rw [(contains_iff_mem_str _ _).mpr hmem] at h1
    simp at h1
  simp [processRec, hm, h2]

theorem processRec_of_filtered (env : Env) (f : Option EngineFilters) (lib : LibrarySets)
    (st : PipeState) (c : Recommendation)
    (h1 : st.seen.contains (engineKey c) = false)
    (h2 : alreadyExists lib (pipeTransform env c) = false)
    (h3 : filterPassB f (pipeTransform env c) = false) :
    processRec env f lib st c = { st with seen := st.seen ++ [engineKey c] } := by
  have hm : engineKey c ∉ st.seen := by
    intro hmem
    rw [(contains_iff_mem_str _ _).mpr hmem] at h1
    simp at h1
  simp [processRec, hm, h2, h3]

theorem processRec_of_kept (env : Env) (f : Option EngineFilters) (lib : LibrarySets)
    (st : PipeState) (c : Recommendation)
    (h1 : st.seen.contains (engineKey c) = false)
    (h2 : alreadyExists lib (pipeTransform env c) = false)
    (h3 : filterPassB f (pipeTransform env c) = true) :
    processRec env f lib st c =
      { seen := st.seen ++ [engineKey c]
        keyed := st.keyed ++ [(engineKey c, pipeTransform env c)]
        db := (addRecommendation st.db (freshIdFor st.nextId) env.now (pipeTransform env c)).1
        nextId := st.nextId + 1 } := by
  have hm : engineKey c ∉ st.seen := by
    intro hmem
    rw [(contains_iff_mem_str _ _).mpr hmem] at h1
    simp at h1
  simp [processRec, hm, h2, h3]

theorem loopInv_init (env : Env) (filters : Option EngineFilters) (db0 : List Row) :
    LoopInv env filters [] { seen := [], keyed := [], db := db0, nextId := 0 } := by
  refine ⟨?_, ?_, ?_⟩
  · intro k
    simp [List.contains]
  · simp
  · intro p hp
    simp at hp

theorem loopInv_step (env : Env) (f : Option EngineFilters) (lib : LibrarySets)
    (processed : List Recommendation) (st : PipeState) (c : Recommendation)
    (h : LoopInv env f processed st) :
    LoopInv env f (processed ++ [c]) (processRec env f lib st c) := by
  have entriesLift : ∀ p ∈ st.keyed, ∃ c0,
      (processed ++ [c]).find? (fun x => engineKey x == p.1) = some c0 ∧
      p.2 = pipeTransform env c0 ∧ engineKey c0 = p.1 ∧ filterPassB f p.2 = true := by
    intro p hp
    obtain ⟨c0, hfind, hrest⟩ := h.entries p hp
    exact ⟨c0, by simp [List.find?_append, hfind], hrest⟩
  by_cases hseen : st.seen.contains (engineKey c) = true
  · rw [processRec_of_seen env f lib st c hseen]
    refine ⟨?_, h.keysNodup, entriesLift⟩
    intro k
    rw [h.seen_iff k]
    constructor
    · rintro ⟨c', hc', hk⟩
      exact ⟨c', List.mem_append_left _ hc', hk⟩
    · rintro ⟨c', hc', hk⟩
      rcases List.mem_append.mp hc' with h1 | h1
      · exact ⟨c', h1, hk⟩
      · have hcc : c' = c := by simpa using h1
        subst hcc
        subst hk
        exact (h.seen_iff _).mp hseen
  · have hseenF : st.seen.contains (engineKey c) = false := by simpa using hseen
    have hseen' : ∀ k, (st.seen ++ [engineKey c]).contains k = true ↔
        ∃ c' ∈ processed ++ [c], engineKey c' = k := by
      intro k
      rw [contains_append_one]
      simp only [Bool.or_eq_true, beq_iff_eq]
      rw [h.seen_iff k]
      constructor
      · rintro (⟨c', hc', hk⟩ | rfl)
        · exact ⟨c', List.mem_append_left _ hc', hk⟩
        · exact ⟨c, List.mem_append_right _ (by simp), rfl⟩
      · rintro ⟨c', hc', hk⟩
        rcases List.mem_append.mp hc' with h1 | h1
        · exact Or.inl ⟨c', h1, hk⟩
        · have hcc : c' = c := by simpa using h1
          subst hcc
          exact Or.inr hk.symm
    by_cases hex : alreadyExists lib (pipeTransform env c) = true
    · rw [processRec_of_excluded env f lib st c hseenF hex]
      exact ⟨hseen', h.keysNodup, entriesLift⟩
    · have hexF : alreadyExists lib (pipeTransform env c) = false := by simpa using hex
      by_cases hfil : filterPassB f (pipeTransform env c) = true
      · rw [processRec_of_kept env f lib st c hseenF hexF hfil]
        have hnone : processed.find? (fun x => engineKey x == engineKey c) = none := by
          rw [List.find?_eq_none]
          intro x hx hbeq
          have hxk : engineKey x = engineKey c := by simpa using hbeq
          rw [← hxk] at hseenF
          have : st.seen.contains (engineKey x) = true :=
            (h.seen_iff _).mpr ⟨x, hx, rfl⟩
          rw [this] at hseenF
          simp at hseenF
        have hkeyNotMem : engineKey c ∉ st.keyed.map Prod.fst := by
          intro hmem
          obtain ⟨p, hp, hp1⟩ := List.mem_map.mp hmem
          obtain ⟨c0, hfind, _, hkey, _⟩ := h.entries p hp
          have hc0mem : c0 ∈ processed := List.mem_of_find?_eq_some hfind
          have : st.seen.contains (engineKey c) = true := by
            rw [← hp1, ← hkey]
            exact (h.seen_iff _).mpr ⟨c0, hc0mem, rfl⟩
          rw [this] at hseenF
          simp at hseenF
        refine ⟨hseen', ?_, ?_⟩
        · rw [List.map_append]
          rw [List.nodup_append]
          refine ⟨h.keysNodup, by simp, ?_⟩
          intro a ha hb
          have : a = engineKey c := by simpa using hb
          subst this
          exact hkeyNotMem ha
        · intro p hp
          rcases List.mem_append.mp hp with h1 | h1
          · exact entriesLift p h1
          · have hpe : p = (engineKey c, pipeTransform env c) := by simpa using h1
            subst hpe
            refine ⟨c, ?_, rfl, rfl, hfil⟩
            rw [List.find?_append, hnone]
            simp
      · have hfilF : filterPassB f (pipeTransform env c) = false := by simpa using hfil
        rw [processRec_of_filtered env f lib st c hseenF hexF hfilF]
        exact ⟨hseen', h.keysNodup, entriesLift⟩

theorem loopInv_fold (env : Env) (f : Option EngineFilters) (lib : LibrarySets) :
    ∀ (l : List Recommendation) (processed : List Recommendation) (st : PipeState),
      LoopInv env f processed st →
      LoopInv env f (processed ++ l) (l.foldl (processRec env f lib) st) := by
  intro l
  induction l with
  | nil =>
    intro processed st h
    simpa using h
  | cons a t ih =>
    intro processed st h
    have := ih (processed ++ [a]) (processRec env f lib st a) (loopInv_step env f lib processed st a h)
    simpa [List.append_assoc] using this

/-- The main structural facts about one run's persisted set:
pairwise-distinct merge keys, and every persisted entry is the transformed
first candidate bearing its key and passed the user filters. -/
theorem runBody_keyed_spec (env : Env) (f : Option EngineFilters) (db0 : List Row) :
    ((runBody env f db0).keyed.map Prod.fst).Nodup ∧
    ∀ p ∈ (runBody env f db0).keyed, ∃ c,
      (runBody env f db0).candidates.find? (fun x => engineKey x == p.1) = some c ∧
      p.2 = pipeTransform env c ∧ engineKey c = p.1 ∧ filterPassB f p.2 = true := by
  unfold runBody
  cases hwh : env.watchHistory with
  | error e => simp
  | ok wh =>
    by_cases hlen : (wh.length == 0) = true
    · simp [hlen]
    · have hlenF : (wh.length == 0) = false := by simpa using hlen
      simp only [hlenF, Bool.false_eq_true, if_false]
      have base := loopInv_init env f db0
      have inv := loopInv_fold env f (libOf env wh) (allRecsOf env f wh) []
        { seen := [], keyed := [], db := db0, nextId := 0 } base
      rw [List.nil_append] at inv
      exact ⟨inv.keysNodup, inv.entries⟩

theorem engineKey_of_falsy (r : Recommendation) (h : natTruthy r.tmdbId = false) :
    engineKey r = "title:" ++ lowerStr r.title := by
  unfold engineKey
  rw [h]
  simp

theorem alreadyExists_transform_of (env : Env) (lib : LibrarySets) (c : Recommendation)
    (h : lib.watchedTitles.contains (lowerStr c.title) = true
       ∨ (c.mediaType = MediaType.movie ∧
           (lib.radarrTitles.contains (lowerStr c.title) = true
            ∨ ∃ n, c.tmdbId = some n ∧ n ≠ 0 ∧ lib.radarrTmdbIds.contains n = true))
       ∨ (c.mediaType = MediaType.series ∧
           (lib.sonarrTitles.contains (lowerStr c.title) = true
            ∨ ∃ n, c.tvdbId = some n ∧ n ≠ 0 ∧ lib.sonarrTvdbIds.contains n = true))) :
    alreadyExists lib (pipeTransform env c) = true := by
  simp only [alreadyExists, pipeTransform_title, pipeTransform_mediaType]
  rcases h with hw | ⟨hm, hd⟩ | ⟨hm, hd⟩
  · rw [hw]
    exact Bool.or_true _
  · rw [hm]
    rcases hd with ht | ⟨n, hn, hnz, hcont⟩
    · rw [ht]
      simp
    · have htr : natTruthy c.tmdbId = true := by rw [hn]; simp [natTruthy, hnz]
      rw [pipeTransform_tmdbId_of_truthy env c htr, hn]
      simp [natTruthy, hnz]
      exact Or.inl (Or.inl (by simpa using hcont))
  · rw [hm]
    rcases hd with ht | ⟨n, hn, hnz, hcont⟩
    · rw [ht]
      simp
    · have htr : natTruthy c.tvdbId = true := by rw [hn]; simp [natTruthy, hnz]
      rw [pipeTransform_tvdbId_of_truthy env c htr, hn]
      simp [natTruthy, hnz]
      exact Or.inl (Or.inl (by simpa using hcont))

/-- C1: while a prior run's flag is set, the entry point returns the
"already running" error with the store untouched and the body — an
arbitrary continuation covering every possible exit, thrown errors
included — never invoked; and every started run (flag initially clear)
finishes with the flag cleared, whatever the body did. -/
theorem claim_C1_single_flight (db0 : List Row)
    (body : List Row → List Row × Except String RunOutcome)
    (env : Env) (f : Option EngineFilters) :
    runEngineWith true db0 body =
      (true, db0, Except.error "Recommendation engine is already running")
    ∧ (runEngineWith false db0 body).1 = false
    ∧ runRecommendationEngine true env f db0 =
      (true, db0, Except.error "Recommendation engine is already running")
    ∧ (runRecommendationEngine false env f db0).1 = false :=
  ⟨rfl, rfl, rfl, rfl⟩

/-- C9: in the auto-add loop a movie candidate without a truthy TMDb id
(resp. a series candidate without a truthy TVDB id) is skipped silently:
the loop state — stored rows, committed counter, issued add calls — is
completely unchanged, so no add call is made, its status stays as
persisted, and nothing is recorded for it. -/
theorem claim_C9_silent_skip (env : Env) (st : AutoState) (r : Recommendation)
    (h : (r.mediaType = MediaType.movie ∧ natTruthy r.tmdbId = false) ∨
         (r.mediaType = MediaType.series ∧ natTruthy r.tvdbId = false)) :
    autoAddStep env st r = st := by
  rcases h with ⟨hm, hid⟩ | ⟨hm, hid⟩
  · simp [autoAddStep, hm, hid]
  · simp [autoAddStep, hm, hid]

/-- Witness for C9: a movie candidate with no catalog id leaves the
auto-add state untouched. -/
theorem claim_C9_witness :
    autoAddStep envBase { db := [rowC6], added := 0, calls := [], errors := [] }
      { title := "NoId", mediaType := MediaType.movie, source := RecSource.ai,
        status := RecStatus.pending } =
      { db := [rowC6], added := 0, calls := [], errors := [] } :=
  claim_C9_silent_skip envBase _ _ (Or.inl ⟨rfl, rfl⟩)

/-- C3: a candidate whose lower-cased title is in the watched set, or whose
kind-appropriate native id (TMDb for movies, TVDB for series) is in that
kind's snapshot id set, or whose lower-cased title is in that kind's
snapshot title set, is excluded from persistence: the merge-loop step
leaves both the persisted list and the record store untouched at every
state. -/
theorem claim_C3_excluded_from_persistence (env : Env) (f : Option EngineFilters)
    (lib : LibrarySets) (st : PipeState) (c : Recommendation)
    (h : lib.watchedTitles.contains (lowerStr c.title) = true
       ∨ (c.mediaType = MediaType.movie ∧
           (lib.radarrTitles.contains (lowerStr c.title) = true
            ∨ ∃ n, c.tmdbId = some n ∧ n ≠ 0 ∧ lib.radarrTmdbIds.contains n = true))
       ∨ (c.mediaType = MediaType.series ∧
           (lib.sonarrTitles.contains (lowerStr c.title) = true
            ∨ ∃ n, c.tvdbId = some n ∧ n ≠ 0 ∧ lib.sonarrTvdbIds.contains n = true))) :
    (processRec env f lib st c).keyed = st.keyed ∧
    (processRec env f lib st c).db = st.db := by
  by_cases hseen : st.seen.contains (engineKey c) = true
  · rw [processRec_of_seen env f lib st c hseen]
    exact ⟨rfl, rfl⟩
  · have hseenF : st.seen.contains (engineKey c) = false := by simpa using hseen
    rw [processRec_of_excluded env f lib st c hseenF (alreadyExists_transform_of env lib c h)]
    exact ⟨rfl, rfl⟩

/-- Witness for C3: a candidate whose title is already watched is not
persisted. -/
theorem claim_C3_witness :
    (processRec envBase none
        { radarrTmdbIds := [], radarrTitles := [], sonarrTvdbIds := [],
          sonarrTitles := [], watchedTitles := ["dune"] }
        { seen := [], keyed := [], db := [], nextId := 0 }
        { title := "Dune", mediaType := MediaType.movie, source := RecSource.tmdb,
          status := RecStatus.pending }).keyed = [] ∧
    (processRec envBase none
        { radarrTmdbIds := [], radarrTitles := [], sonarrTvdbIds := [],
          sonarrTitles := [], watchedTitles := ["dune"] }
        { seen := [], keyed := [], db := [], nextId := 0 }
        { title := "Dune", mediaType := MediaType.movie, source := RecSource.tmdb,
          status := RecStatus.pending }).db = [] :=
  claim_C3_excluded_from_persistence envBase none _ _ _ (Or.inl (by decide))

/-- Counterexample for C2 as stated: in `envC2` the run persists two
entries that both carry catalog id 42 — the second candidate's id was only
backfilled by enrichment after its merge key had been computed from the
title, so the persisted set is not free of catalog-id duplicates. -/
theorem claim_C2_counterexample :
    ¬ (noSharedCatalogChk ((runBody envC2 none []).keyed.map Prod.snd) = true) := by
  decide

/-- Amended C5 scenario: with auto-commit enabled, three surviving movie
candidates and exactly one failing commit, the run still returns normally,
but with `addedToArr = 0` and *two* `Add error` entries: the structured
commit failure is only logged, never appended to `errors`, while each
*successful* commit throws when updating the stored status — the update
binds the candidate's in-memory id, which the engine never sets
(`addRecommendation`'s return is discarded), and binding `undefined`
raises a `TypeError` — so the `catch` collects one entry per successful
commit, the counter is never incremented, `totalNew = 3`, and every stored
row remains `pending`. -/
theorem claim_C5_amended_scenario :
    (runBody envC5 none []).result.addedToArr = 0
    ∧ (runBody envC5 none []).result.errors =
        ["Add error for \"A\": " ++ undefinedBindMsg,
         "Add error for \"C\": " ++ undefinedBindMsg]
    ∧ (runBody envC5 none []).result.totalNew = 3
    ∧ (runRecommendationEngine false envC5 none []).2.2 = Except.ok (runBody envC5 none [])
    ∧ (runBody envC5 none []).db.all (fun row => row.status == RecStatus.pending) = true := by
  refine ⟨by decide, by decide, by decide, rfl, by decide⟩

/-- Counterexample for C5 as stated: in the very scenario the claim
describes (3 surviving candidates, 1 failing commit) the run neither
commits two items nor collects one error — the committed counter stays 0
and two errors are collected. -/
theorem claim_C5_counterexample :
    ¬ ((runBody envC5 none []).result.addedToArr = 2 ∧
       (runBody envC5 none []).result.errors.length = 1) := by
  decide

/-- Counterexample for C8 as stated: transitioning a stored pending
recommendation to `rejected` and back to `pending` does not return the
store to its original observable state — the re-read record differs
(its `updatedAt` reflects the second transition). -/
theorem claim_C8_counterexample :
    ¬ (getRecommendations
        (updateRecommendationStatus
          (updateRecommendationStatus [rowC8] "rid3" RecStatus.rejected
            "2024-01-02 00:00:00").1
          "rid3" RecStatus.pending "2024-01-03 00:00:00").1
        (some RecStatus.pending) 50 0 =
       getRecommendations [rowC8] (some RecStatus.pending) 50 0) := by
  decide

/-- C2 (amended): the persisted entries of a run carry pairwise-distinct
merge keys (computed before enrichment: catalog id preferred, else the
lower-cased title), so in particular no two persisted entries lacking a
catalog id share a lower-cased title; and every persisted entry is the
transformed *first* candidate bearing its key, keeping that candidate's
source tag and title.  (Enrichment may backfill a catalog id after the key
was computed, so two persisted entries can still come to share a catalog
id — see the counterexample.) -/
theorem claim_C2_merge_dedup (env : Env) (f : Option EngineFilters) (db0 : List Row)
    (k : String) (r : Recommendation)
    (hmem : (k, r) ∈ (runBody env f db0).keyed) :
    ((runBody env f db0).keyed.map Prod.fst).Nodup
    ∧ List.Pairwise (fun p q : String × Recommendation =>
        natTruthy p.2.tmdbId = false → natTruthy q.2.tmdbId = false →
        lowerStr p.2.title ≠ lowerStr q.2.title) (runBody env f db0).keyed
    ∧ ∃ c, (runBody env f db0).candidates.find? (fun x => engineKey x == k) = some c
        ∧ r = pipeTransform env c ∧ r.source = c.source ∧ r.title = c.title := by
  obtain ⟨hnodup, hentries⟩ := runBody_keyed_spec env f db0
  refine ⟨hnodup, ?_, ?_⟩
  · have hkeyEq : ∀ p ∈ (runBody env f db0).keyed,
        natTruthy p.2.tmdbId = false → p.1 = "title:" ++ lowerStr p.2.title := by
      intro p hp hf
      obtain ⟨c, hfind, hpe, hkey, _⟩ := hentries p hp
      have hcf : natTruthy c.tmdbId = false := by
        apply pipeTransform_tmdbId_falsy env c
        rw [← hpe]
        exact hf
      have hk2 : engineKey c = "title:" ++ lowerStr c.title := engineKey_of_falsy c hcf
      have ht : p.2.title = c.title := by rw [hpe]; exact pipeTransform_title env c
      rw [← hkey, hk2, ht]
    have pw : List.Pairwise (fun p q : String × Recommendation => p.1 ≠ q.1)
        (runBody env f db0).keyed := List.pairwise_map.mp hnodup
    refine List.Pairwise.imp_of_mem ?_ pw
    intro p q hp hq hne hpf hqf heq
    apply hne
    rw [hkeyEq p hp hpf, hkeyEq q hq hqf, heq]
  · obtain ⟨c, hfind, hpe, _, _⟩ := hentries (k, r) hmem
    have hpe' : r = pipeTransform env c := hpe
    refine ⟨c, hfind, hpe', ?_, ?_⟩
    · rw [hpe']; exact pipeTransform_source env c
    · rw [hpe']; exact pipeTransform_title env c

/-- Witness for the amended C2 at the concrete `envC2` run, instantiated at
the persisted generative candidate. -/
theorem claim_C2_witness :
    ((runBody envC2 none []).keyed.map Prod.fst).Nodup
    ∧ List.Pairwise (fun p q : String × Recommendation =>
        natTruthy p.2.tmdbId = false → natTruthy q.2.tmdbId = false →
        lowerStr p.2.title ≠ lowerStr q.2.title) (runBody envC2 none []).keyed
    ∧ ∃ c, (runBody envC2 none []).candidates.find?
          (fun x => engineKey x == "title:y") = some c
        ∧ recC2Y = pipeTransform envC2 c ∧ recC2Y.source = c.source
        ∧ recC2Y.title = c.title :=
  claim_C2_merge_dedup envC2 none [] "title:y" recC2Y (by decide)

theorem genreOk_spec (f : EngineFilters) (r : Recommendation) (h : genreOk f r = true)
    (gs : List String) (hgs : f.genres = some gs) (hlen : 0 < gs.length) :
    ∃ fg ∈ gs, ∃ g ∈ r.genres.getD [], lowerStr g = lowerStr fg := by
  unfold genreOk at h
  simp only [hgs] at h
  rw [if_pos hlen] at h
  obtain ⟨fg, hfg, hc⟩ := List.any_eq_true.mp h
  obtain ⟨g, hg, hge⟩ := List.mem_map.mp ((contains_iff_mem_str _ _).mp hc)
  exact ⟨fg, hfg, g, hg, hge⟩

theorem langOk_spec (f : EngineFilters) (r : Recommendation) (h : langOk f r = true)
    (s : String) (hs : f.language = some s) (h1 : s ≠ "") (h2 : s ≠ "all") :
    ∃ t, r.language = some t ∧ t ≠ "" ∧ lowerStr t = lowerStr s := by
  unfold langOk at h
  simp only [hs] at h
  have hcond : (s != "" && s != "all") = true := by simp [h1, h2]
  rw [if_pos hcond] at h
  cases hl : r.language with
  | none =>
    rw [hl] at h
    exact absurd h (by simp)
  | some t =>
    rw [hl] at h
    obtain ⟨ha, hb⟩ := Bool.and_eq_true_iff.mp h
    exact ⟨t, rfl, by simpa using ha, by simpa using hb⟩

theorem yearOk_spec (f : EngineFilters) (r : Recommendation) (h : yearOk f r = true)
    (y : Nat) (hy : r.year = some y) (hynz : y ≠ 0) :
    (∀ m, f.yearMin = some m → m ≠ 0 → m ≤ y) ∧
    (∀ M, f.yearMax = some M → M ≠ 0 → y ≤ M) := by
  unfold yearOk at h
  simp only [hy] at h
  have hcond : (y != 0) = true := by simpa using hynz
  rw [if_pos hcond] at h
  obtain ⟨ha, hb⟩ := Bool.and_eq_true_iff.mp h
  constructor
  · intro m hm hmnz
    rw [hm] at ha
    simp only [Option.some.injEq] at ha
    rw [if_pos (by simpa using hmnz : (m != 0) = true)] at ha
    exact Nat.le_of_not_lt (by simpa using ha)
  · intro M hM hMnz
    rw [hM] at hb
    simp only [Option.some.injEq] at hb
    rw [if_pos (by simpa using hMnz : (M != 0) = true)] at hb
    exact Nat.le_of_not_lt (by simpa using hb)

theorem typeOk_spec (f : EngineFilters) (r : Recommendation) (h : typeOk f r = true)
    (mt : MTFilter) (hmt : f.mediaType = some mt) (hne : mt ≠ MTFilter.all) :
    mtEq r.mediaType mt = true := by
  unfold typeOk at h
  simp only [hmt] at h
  rw [if_pos (by simpa using hne : (mt != MTFilter.all) = true)] at h
  exact h

theorem yearOk_of_missing (f : EngineFilters) (r : Recommendation)
    (h : natTruthy r.year = false) : yearOk f r = true := by
  unfold yearOk
  cases hy : r.year with
  | none => simp
  | some y =>
    rw [hy] at h
    have : y = 0 := by simpa [natTruthy] using h
    simp [this]

theorem filterPassB_parts (f : EngineFilters) (r : Recommendation)
    (h : filterPassB (some f) r = true) :
    genreOk f r = true ∧ langOk f r = true ∧ yearOk f r = true ∧ typeOk f r = true := by
  unfold filterPassB at h
  obtain ⟨hab, hcd⟩ := Bool.and_eq_true_iff.mp h
  obtain ⟨ha, hb⟩ := Bool.and_eq_true_iff.mp (Bool.and_eq_true_iff.mp hab).1
  exact ⟨ha, hb, (Bool.and_eq_true_iff.mp hab).2, hcd⟩

/-- C4: every candidate persisted by a run with filters satisfies all
active predicates — a genre allow-list is intersected case-insensitively, a
non-`all` language filter requires a case-insensitively equal (present)
language, truthy year bounds confine a truthy year inclusively, and a
non-`all` kind filter requires the same kind; moreover the year predicate
never excludes a candidate without a (truthy) year. -/
theorem claim_C4_filter_soundness (env : Env) (f : EngineFilters) (db0 : List Row)
    (r : Recommendation)
    (hmem : r ∈ (runBody env (some f) db0).keyed.map Prod.snd) :
    activeFilterSat f r ∧
    ∀ (g : EngineFilters) (q : Recommendation),
      natTruthy q.year = false → yearOk g q = true := by
  obtain ⟨p, hp, hpe⟩ := List.mem_map.mp hmem
  obtain ⟨c, _, _, _, hfil⟩ := (runBody_keyed_spec env (some f) db0).2 p hp
  rw [hpe] at hfil
  obtain ⟨hg, hl, hy, ht⟩ := filterPassB_parts f r hfil
  refine ⟨⟨?_, ?_, ?_, ?_⟩, fun g q hq => yearOk_of_missing g q hq⟩
  · intro gs hgs hlen
    exact genreOk_spec f r hg gs hgs hlen
  · intro s hs h1 h2
    exact langOk_spec f r hl s hs h1 h2
  · intro y hy' hynz
    exact yearOk_spec f r hy y hy' hynz
  · intro mt hmt hne
    exact typeOk_spec f r ht mt hmt hne

/-- Witness for C4 at the concrete `envC4` run under all four active
filters, instantiated at its surviving candidate. -/
theorem claim_C4_witness :
    activeFilterSat fC4 recC4 ∧
    ∀ (g : EngineFilters) (q : Recommendation),
      natTruthy q.year = false → yearOk g q = true :=
  claim_C4_filter_soundness envC4 fC4 [] recC4 (by decide)

theorem tmdbResultToRecommendation_source (result : TmdbResult) (t : MediaType)
    (s : RecSource) (b : Option String) :
    (tmdbResultToRecommendation result t s b).source = s := rfl

theorem itemMergeLoop_source (item : WatchedItem) (m : Nat) :
    ∀ (rs : List TmdbResult) (seen : List Nat) (acc : List Recommendation),
      (∀ c ∈ acc, c.source = RecSource.tmdb) →
      ∀ c ∈ itemMergeLoop item m seen acc rs, c.source = RecSource.tmdb := by
  intro rs
  induction rs with
  | nil =>
    intro seen acc hacc c hc
    exact hacc c (by simpa [itemMergeLoop] using hc)
  | cons a t ih =>
    intro seen acc hacc c hc
    unfold itemMergeLoop at hc
    split at hc
    · exact hacc c hc
    · refine ih _ _ ?_ c hc
      intro c' hc'
      rcases List.mem_append.mp hc' with h1 | h1
      · exact hacc c' h1
      · have : c' = tmdbResultToRecommendation a item.mediaType RecSource.tmdb
            (some item.title) := by simpa using h1
        rw [this]
        rfl

theorem collectItemRecs_source (env : Env) (m : Nat) :
    ∀ (items : List WatchedItem), ∀ c ∈ (collectItemRecs env m items).1,
      c.source = RecSource.tmdb := by
  intro items
  induction items with
  | nil =>
    intro c hc
    simp [collectItemRecs] at hc
  | cons item rest ih =>
    intro c hc
    unfold collectItemRecs at hc
    cases hres : env.itemResults item with
    | ok rs =>
      rw [hres] at hc
      simp only at hc
      rcases List.mem_append.mp hc with h1 | h1
      · exact itemMergeLoop_source item m rs [] [] (by intro c' hc'; simp at hc') c h1
      · exact ih c h1
    | error e =>
      rw [hres] at hc
      exact ih c hc

theorem discoverByFilters_source (env : Env) (mt : Option MTFilter) (maxResults : Nat) :
    ∀ c ∈ discoverByFilters env mt maxResults, c.source = RecSource.tmdb := by
  intro c hc
  unfold discoverByFilters at hc
  obtain ⟨l, hl, hcl⟩ := List.mem_flatten.mp hc
  obtain ⟨ty, _, hty⟩ := List.mem_map.mp hl
  rw [← hty] at hcl
  obtain ⟨tr, _, htr⟩ := List.mem_map.mp hcl
  rw [← htr]
  rfl

theorem allTmdbRecsOf_source (env : Env) (f : Option EngineFilters)
    (wh : List WatchedItem) :
    ∀ c ∈ allTmdbRecsOf env f wh, c.source = RecSource.tmdb := by
  intro c hc
  unfold allTmdbRecsOf at hc
  rcases List.mem_append.mp hc with h1 | h1
  · exact collectItemRecs_source env _ _ c h1
  · by_cases hda : discoverActive f = true
    · rw [if_pos hda] at h1
      exact discoverByFilters_source env _ _ c h1
    · rw [if_neg hda] at h1
      simp at h1

theorem aiRecsOf_language (env : Env) :
    ∀ c ∈ aiRecsOf env, c.language = none := by
  intro c hc
  unfold aiRecsOf at hc
  by_cases hai : env.aiEnabled = true
  · rw [if_pos hai] at hc
    obtain ⟨i, _, hi⟩ := List.mem_map.mp hc
    rw [← hi]
    rfl
  · rw [if_neg hai] at hc
    simp at hc

theorem candidates_ai_language (env : Env) (f : Option EngineFilters) (db0 : List Row) :
    ∀ c ∈ (runBody env f db0).candidates,
      c.source = RecSource.ai → c.language = none := by
  unfold runBody
  cases hwh : env.watchHistory with
  | error e =>
    intro c hc
    simp at hc
  | ok wh =>
    by_cases hlen : (wh.length == 0) = true
    · simp only [hlen, if_true]
      intro c hc
      simp at hc
    · have hlenF : (wh.length == 0) = false := by simpa using hlen
      simp only [hlenF, Bool.false_eq_true, if_false]
      intro c hc hsrc
      rcases List.mem_append.mp hc with h1 | h1
      · have := allTmdbRecsOf_source env f wh c h1
        rw [this] at hsrc
        exact absurd hsrc (by simp)
      · exact aiRecsOf_language env c h1

/-- C10: under an active language filter (truthy and not the literal
`all`), no generative-sourced candidate is ever persisted — generative
candidates are constructed without a language, the enrichment never
backfills one, and the language predicate drops language-less candidates. -/
theorem claim_C10_language_filter_blocks_ai (env : Env) (f : EngineFilters)
    (db0 : List Row) (r : Recommendation) (s : String)
    (hs : f.language = some s) (h1 : s ≠ "") (h2 : s ≠ "all")
    (hmem : r ∈ (runBody env (some f) db0).keyed.map Prod.snd) :
    r.source ≠ RecSource.ai := by
  obtain ⟨p, hp, hpe⟩ := List.mem_map.mp hmem
  obtain ⟨c, hfind, hpe2, _, hfil⟩ := (runBody_keyed_spec env (some f) db0).2 p hp
  rw [hpe] at hfil
  intro hai
  have hcsrc : c.source = RecSource.ai := by
    rw [← pipeTransform_source env c, ← hpe2, hpe]
    exact hai
  have hcmem : c ∈ (runBody env (some f) db0).candidates :=
    List.mem_of_find?_eq_some hfind
  have hclang : c.language = none := candidates_ai_language env (some f) db0 c hcmem hcsrc
  have hrlang : r.language = none := by
    rw [← hpe, hpe2, pipeTransform_language, hclang]
  obtain ⟨hg, hl, _, _⟩ := filterPassB_parts f r hfil
  obtain ⟨t, ht, _, _⟩ := langOk_spec f r hl s hs h1 h2
  rw [hrlang] at ht
  exact Option.noConfusion ht

/-- Witness for C10: in the concrete `envC10` run (AI enabled, language
filter `en` active) the surviving candidate is not generative-sourced. -/
theorem claim_C10_witness : recC4.source ≠ RecSource.ai :=
  claim_C10_language_filter_blocks_ai envC10 fC10 [] recC4 "en" rfl
    (by decide) (by decide) (by decide)

/-- C6: when the destination lookup's exact case-insensitive title match
for a stored recommendation carries a truthy native id, the commit issues
exactly one add call with that native id (the destination's own movie id
for movies, its own series id for series) — in particular never with the
recommendation's stored catalog identifier when it differs. -/
theorem claim_C6_native_id_commit (env : Env) (db : List Row) (rid : String)
    (opts : AddOptions) (rec : Recommendation) (n : Nat)
    (hfind : (getRecommendations db none 50 0).find? (fun r => r.id == some rid) = some rec)
    (hmatch : exactMatchNativeId env rec = some n) :
    (approveAndAdd env db rid opts).calls = [mkArrCall rec.mediaType n] := by
  simp only [approveAndAdd]
  rw [hfind]
  unfold exactMatchNativeId at hmatch
  cases hmt : rec.mediaType with
  | movie =>
    cases hex : (env.movieLookupTerm rec.title).find?
        (fun m => lowerStr (m.title.getD "") == lowerStr rec.title) with
    | none =>
      simp only [hmt, hex] at hmatch
      exact absurd hmatch (by simp)
    | some m =>
      simp only [hmt, hex] at hmatch
      by_cases htr : natTruthy m.tmdbId = true
      · rw [if_pos htr] at hmatch
        simp only [hmt, hex]
        rw [if_pos htr]
        simp only [hmatch, Option.getD_some, mkArrCall]
        split <;> rfl
      · rw [if_neg htr] at hmatch
        exact absurd hmatch (by simp)
  | series =>
    cases hex : (env.seriesLookupTerm rec.title).find?
        (fun s => lowerStr (s.title.getD "") == lowerStr rec.title) with
    | none =>
      simp only [hmt, hex] at hmatch
      exact absurd hmatch (by simp)
    | some m =>
      simp only [hmt, hex] at hmatch
      by_cases htr : natTruthy m.tvdbId = true
      · rw [if_pos htr] at hmatch
        simp only [hmt, hex]
        rw [if_neg (by simp [htr] : ¬((!natTruthy m.tvdbId) = true))]
        simp only [hmatch, Option.getD_some, mkArrCall]
        split <;> rfl
      · rw [if_neg htr] at hmatch
        exact absurd hmatch (by simp)

/-- Witness for C6: the exact case-insensitive match `DUNE` with native id
77 is committed with 77, not with the stored catalog id 438631. -/
theorem claim_C6_witness :
    (approveAndAdd envC6 [rowC6] "rid1"
        { qualityProfileId := none, rootFolderPath := none, searchForContent := none }).calls =
      [mkArrCall (rowToRecommendation rowC6).mediaType 77] :=
  claim_C6_native_id_commit envC6 [rowC6] "rid1" _ (rowToRecommendation rowC6) 77
    (by decide) (by decide)

theorem containsCI_could_not_find (t : String) :
    containsCI (("Could not find movie with tmdb:" ++ t).data)
      ("could not find".data) = true := rfl

/-- C7: committing a movie recommendation that carries only a stale catalog
id — the destination's title lookup returns zero results, the id is not in
the destination library, and the destination's id lookup finds nothing —
returns a structured failure: `success = false` with a message containing
"could not find" (case-insensitively; the literal message says
"Could not find movie with tmdb:<id>"). -/
theorem claim_C7_stale_id_failure (env : Env) (db : List Row) (rid : String)
    (opts : AddOptions) (rec : Recommendation) (n : Nat)
    (hfind : (getRecommendations db none 50 0).find? (fun r => r.id == some rid) = some rec)
    (hmov : rec.mediaType = MediaType.movie)
    (hid : rec.tmdbId = some n) (hn : n ≠ 0)
    (hterm : env.movieLookupTerm rec.title = [])
    (hex : env.movieExists n = false)
    (hmeta : env.movieLookupTmdb n = none) :
    (approveAndAdd env db rid opts).outcome.success = false
    ∧ containsCI (approveAndAdd env db rid opts).outcome.message.data
        ("could not find".data) = true := by
  have hres : approveAndAdd env db rid opts =
      { outcome := { success := false
                     message := "Could not find movie with tmdb:" ++ toString n }
        calls := [ArrCall.movie n], db := db } := by
    simp only [approveAndAdd]
    rw [hfind]
    simp only [hmov, hterm, List.find?_nil]
    unfold approveMovieFallback
    rw [hid]
    have htr : natTruthy (some n) = true := by simpa [natTruthy] using hn
    rw [if_pos htr]
    simp only [Option.getD_some]
    unfold addMovieToRadarr
    simp only [hex, hmeta, Bool.false_eq_true, if_false]
  rw [hres]
  exact ⟨rfl, containsCI_could_not_find (toString n)⟩

/-- Witness for C7: committing the stored `Ghost` recommendation whose
catalog id 999 is stale yields a structured "could not find" failure. -/
theorem claim_C7_witness :
    (approveAndAdd envBase [rowC7] "rid2"
        { qualityProfileId := none, rootFolderPath := none,
          searchForContent := none }).outcome.success = false
    ∧ containsCI (approveAndAdd envBase [rowC7] "rid2"
        { qualityProfileId := none, rootFolderPath := none,
          searchForContent := none }).outcome.message.data
        ("could not find".data) = true :=
  claim_C7_stale_id_failure envBase [rowC7] "rid2" _ (rowToRecommendation rowC7) 999
    (by decide) rfl rfl (by decide) rfl rfl rfl

/-- C8 (amended): transitioning a stored pending recommendation
`pending -> rejected -> pending` returns every field except `updated_at` to
its original value — the store equals a pointwise map touching only the
matching row, whose final form is the original row with `status` back to
`pending` and `updated_at` stamped by the second transition; and persisting
a fresh recommendation stores a row read back (via `rowToRecommendation`,
the read path of `getRecommendations`) with the identity fields — title and
truthy catalog id — unchanged. -/
theorem claim_C8_roundtrip_amended (db : List Row) (row : Row) (t1 t2 : String)
    (rec : Recommendation) (freshId now : String)
    (hmem : row ∈ db) (hpend : row.status = RecStatus.pending)
    (hdup : dupRowFor db rec = none) :
    ((updateRecommendationStatus
        (updateRecommendationStatus db row.id RecStatus.rejected t1).1
        row.id RecStatus.pending t2).1 =
      db.map (fun x => if x.id == row.id
        then { x with status := RecStatus.pending, updatedAt := t2 } else x))
    ∧ { row with updatedAt := t2 } ∈
        (updateRecommendationStatus
          (updateRecommendationStatus db row.id RecStatus.rejected t1).1
          row.id RecStatus.pending t2).1
    ∧ (addRecommendation db freshId now rec).1 =
        db ++ [recToRow (if strTruthy rec.id then rec.id.getD "" else freshId) now rec]
    ∧ (rowToRecommendation (recToRow freshId now rec)).title = rec.title
    ∧ (rowToRecommendation (recToRow freshId now rec)).tmdbId =
        (if natTruthy rec.tmdbId then rec.tmdbId else none) := by
  have hmap : (updateRecommendationStatus
      (updateRecommendationStatus db row.id RecStatus.rejected t1).1
      row.id RecStatus.pending t2).1 =
      db.map (fun x => if x.id == row.id
        then { x with status := RecStatus.pending, updatedAt := t2 } else x) := by
    unfold updateRecommendationStatus
    simp only [List.map_map]
    apply List.map_congr_left
    intro x hx
    by_cases hxid : (x.id == row.id) = true
    · simp [Function.comp, hxid]
    · simp [Function.comp, hxid]
  refine ⟨hmap, ?_, ?_, rfl, rfl⟩
  · rw [hmap]
    refine List.mem_map.mpr ⟨row, hmem, ?_⟩
    have hb : (row.id == row.id) = true := by simp
    simp only [hb, if_true]
    rw [← hpend]
  · unfold addRecommendation
    rw [hdup]

/-- Witness for the amended C8 at a concrete store, row, timestamps and
fresh recommendation. -/
theorem claim_C8_witness :
    ((updateRecommendationStatus
        (updateRecommendationStatus [rowC8] rowC8.id RecStatus.rejected
          "2024-01-02 00:00:00").1
        rowC8.id RecStatus.pending "2024-01-03 00:00:00").1 =
      [rowC8].map (fun x => if x.id == rowC8.id
        then { x with status := RecStatus.pending, updatedAt := "2024-01-03 00:00:00" }
        else x))
    ∧ { rowC8 with updatedAt := "2024-01-03 00:00:00" } ∈
        (updateRecommendationStatus
          (updateRecommendationStatus [rowC8] rowC8.id RecStatus.rejected
            "2024-01-02 00:00:00").1
          rowC8.id RecStatus.pending "2024-01-03 00:00:00").1
    ∧ (addRecommendation [rowC8] "uuid-w" "2024-02-02 00:00:00" recC8).1 =
        [rowC8] ++ [recToRow (if strTruthy recC8.id then recC8.id.getD "" else "uuid-w")
          "2024-02-02 00:00:00" recC8]
    ∧ (rowToRecommendation (recToRow "uuid-w" "2024-02-02 00:00:00" recC8)).title =
        recC8.title
    ∧ (rowToRecommendation (recToRow "uuid-w" "2024-02-02 00:00:00" recC8)).tmdbId =
        (if natTruthy recC8.tmdbId then recC8.tmdbId else none) :=
  claim_C8_roundtrip_amended [rowC8] rowC8 "2024-01-02 00:00:00" "2024-01-03 00:00:00"
    recC8 "uuid-w" "2024-02-02 00:00:00" (by decide) rfl (by decide)

end Recomendarr
